import Mathlib

/-!
Verification development for the recruitment-agency ledger backend.

The definitions below are a shallow embedding of the financial-ledger core:
the SQLAlchemy rows become Lean structures, the database session becomes an
explicit `DB` value threaded through each endpoint function, and every
fallible endpoint returns `Except ApiError (DB × payload)`: an `.error`
result models an HTTP error response with the whole transaction rolled back
(the caller keeps the pre-state), while `.ok (db, x)` models a committed
transaction with response payload `x`.  Python ints are `Int`, datetimes are
`Nat` timestamps, and UUID primary keys are `Nat` (fresh ids are drawn from a
`next_id` counter).
-/

set_option linter.unusedVariables false

namespace JobPortal

/-- Candidate.status enum from app/models/candidate.py (REGISTERED, COURSE, FREE). -/
inductive CandidateStatus
  | REGISTERED
  | COURSE
  | FREE
deriving DecidableEq, Repr

/-- Candidate employment status enum from app/models/candidate.py. -/
inductive CandidateEmploymentStatus
  | EMPLOYED
  | UNEMPLOYED
deriving DecidableEq, Repr

/-- Interview.status enum from app/models/interview.py. -/
inductive InterviewStatus
  | SCHEDULED
  | REJECTED_BY_EMPLOYER
  | REJECTED_BY_CANDIDATE
  | ON_HOLD
  | JOINED
deriving DecidableEq, Repr

/-- Job.status enum from app/models/job.py. -/
inductive JobStatus
  | OPEN
  | FULFILLED
  | DROPPED
deriving DecidableEq, Repr

/-- candidates table row (fields relevant to the ledger core). -/
structure Candidate where
  id : Nat
  full_name : Option String
  status : CandidateStatus
  employment_status : CandidateEmploymentStatus
  is_active : Bool
deriving DecidableEq, Repr

/-- course_structure_fees table row. -/
structure CourseStructureFee where
  id : Nat
  candidate_id : Nat
  total_fee : Int
  balance : Int
  due_date : Option Nat
  is_active : Bool
deriving DecidableEq, Repr

/-- candidate_payments table row. -/
structure CandidatePayment where
  id : Nat
  candidate_id : Nat
  amount : Int
  payment_date : Nat
  created_at : Nat
  remarks : Option String
  is_active : Bool
deriving DecidableEq, Repr

/-- jobs table row (fields relevant to the ledger core). -/
structure Job where
  id : Nat
  company_id : Nat
  title : String
  num_vacancies : Int
  status : JobStatus
  is_active : Bool
deriving DecidableEq, Repr

/-- interviews table row. -/
structure Interview where
  id : Nat
  company_id : Nat
  job_id : Nat
  candidate_id : Nat
  status : InterviewStatus
  is_active : Bool
deriving DecidableEq, Repr

/-- joined_candidates table row (class Joined_candidates in app/models/job.py). -/
structure Joined_candidates where
  id : Nat
  job_id : Nat
  candidate_id : Nat
  Date_of_joining : Nat
  salary : Int
  remarks : Option String
  is_active : Bool
deriving DecidableEq, Repr

/-- placement_incomes table row. -/
structure PlacementIncome where
  id : Nat
  interview_id : Nat
  candidate_id : Nat
  job_id : Nat
  total_receivable : Int
  total_received : Int
  balance : Int
  due_date : Nat
  remarks : Option String
  is_active : Bool
deriving DecidableEq, Repr

/-- placement_income_payments table row. -/
structure PlacementIncomePayment where
  id : Nat
  placement_income_id : Nat
  amount : Int
  paid_date : Nat
  created_at : Nat
  remarks : Option String
  is_active : Bool
deriving DecidableEq, Repr

/-- companies table row (fields relevant to the ledger core). -/
structure Company where
  id : Nat
  name : String
  is_active : Bool
deriving DecidableEq, Repr

/-- company_payments table row.  Note: this table has no is_active column
(app/models/company.py), matching the hard-delete behaviour of its endpoint. -/
structure CompanyPayment where
  id : Nat
  company_id : Nat
  amount : Int
  payment_date : Nat
  created_at : Nat
  remarks : Option String
deriving DecidableEq, Repr

/-- The database state: one list per table plus a fresh-id counter used when
the ORM inserts rows with generated primary keys. -/
structure DB where
  candidates : List Candidate
  course_fees : List CourseStructureFee
  candidate_payments : List CandidatePayment
  jobs : List Job
  interviews : List Interview
  joined_candidates : List Joined_candidates
  placement_incomes : List PlacementIncome
  placement_income_payments : List PlacementIncomePayment
  companies : List Company
  company_payments : List CompanyPayment
  next_id : Nat
deriving DecidableEq, Repr

/-- HTTP-level error outcomes raised by the endpoints.  `unprocessable`
models a pydantic 422 request-validation failure, `internalError` models an
uncaught Python exception (HTTP 500). -/
inductive ApiError
  | notFound (detail : String)
  | badRequest (detail : String)
  | conflict (detail : String)
  | unprocessable (detail : String)
  | internalError (detail : String)
deriving DecidableEq, Repr

/-- The database state visible after the request: the new state on a
committed transaction, the unchanged pre-state on any error (rollback). -/
def commitState {α : Type} (db : DB) (r : Except ApiError (DB × α)) : DB :=
  match r with
  | .ok (db2, _) => db2
  | .error _ => db

/-- Decidable equality for endpoint results, so that concrete runs can be
checked by decide. -/
instance instDecidableEqExcept {ε α : Type} [DecidableEq ε] [DecidableEq α] :
    DecidableEq (Except ε α) := fun a b =>
  match a, b with
  | .ok x, .ok y => decidable_of_iff (x = y) (by simp)
  | .error x, .error y => decidable_of_iff (x = y) (by simp)
  | .ok _, .error _ => isFalse (fun h => Except.noConfusion h)
  | .error _, .ok _ => isFalse (fun h => Except.noConfusion h)

/-- Row update used to model mutating a fetched ORM row: every row matching
the predicate is replaced by its image under f (primary keys are unique, so
at most one row matches in reachable states). -/
def updateWhere {α : Type} (l : List α) (p : α → Bool) (f : α → α) : List α :=
  l.map (fun a => if p a then f a else a)

/-- PATCH /interviews/id/status request body (schemas/interview.py,
InterviewStatusUpdate).  The pydantic constraints salary > 0 and
placement_total_receivable > 0 are checked by `interviewSchemaErrorFields`. -/
structure InterviewStatusUpdate where
  status : InterviewStatus
  doj : Option Nat
  salary : Option Int
  placement_total_receivable : Option Int
  placement_due_date : Option Nat
  placement_remarks : Option String
deriving DecidableEq, Repr

/-- The pydantic field validators of InterviewStatusUpdate: salary and
placement_total_receivable carry Field(gt=0).  pydantic validates every
field of the body and a 422 response lists each offending field, so the
result is the list of field names whose present value is non-positive. -/
def interviewSchemaErrorFields (body : InterviewStatusUpdate) : List String :=
  (match body.salary with
   | some s => if s ≤ 0 then ["salary"] else []
   | none => []) ++
  (match body.placement_total_receivable with
   | some r => if r ≤ 0 then ["placement_total_receivable"] else []
   | none => [])

/-- Response payload of the status endpoint: the updated interview plus the
placement_income_id attached to the hydrated payload. -/
structure InterviewStatusResult where
  interview : Interview
  placement_income_id : Option Nat
deriving DecidableEq, Repr

/-- update_interview_status (app/api/v1/interviews.py, lines 214-339): loads
interview, job and candidate (404 when missing or inactive); for a JOINED
target validates doj/salary presence, receivable presence, candidate not
EMPLOYED, vacancies > 0 and no active joined row, then inserts the join row,
creates or reuses the active placement income for the interview, decrements
the vacancies (floored at 0, setting FULFILLED at 0) and marks the candidate
EMPLOYED; finally (for every target status) overwrites interview.status. -/
def update_interview_status (db : DB) (interview_id : Nat)
    (body : InterviewStatusUpdate) : Except ApiError (DB × InterviewStatusResult) :=
  match db.interviews.find? (fun x => x.id == interview_id) with
  | none => .error (.notFound "Interview not found")
  | some interview =>
    if interview.is_active = false then .error (.notFound "Interview not found") else
    match db.jobs.find? (fun x => x.id == interview.job_id) with
    | none => .error (.notFound "Job not found")
    | some job =>
      if job.is_active = false then .error (.notFound "Job not found") else
      match db.candidates.find? (fun x => x.id == interview.candidate_id) with
      | none => .error (.notFound "Candidate not found")
      | some candidate =>
        if candidate.is_active = false then .error (.notFound "Candidate not found") else
        let side : Except ApiError (DB × Option Nat) :=
          if body.status = .JOINED then
            match body.doj, body.salary with
            | some doj, some salary =>
              match body.placement_total_receivable with
              | none =>
                .error (.badRequest "placement_total_receivable is required when status is JOINED")
              | some receivable =>
                if candidate.employment_status = .EMPLOYED then
                  .error (.conflict "Candidate is already EMPLOYED and cannot be joined to another job")
                else if job.num_vacancies ≤ 0 then
                  .error (.badRequest "No vacancies available for this job")
                else if db.joined_candidates.any
                    (fun r => r.is_active && r.job_id == job.id && r.candidate_id == interview.candidate_id) then
                  .error (.conflict "Candidate already marked as JOINED for this job")
                else
                  let joined_row : Joined_candidates :=
                    { id := db.next_id, job_id := job.id, candidate_id := interview.candidate_id,
                      Date_of_joining := doj, salary := salary, remarks := none, is_active := true }
                  let db1 : DB :=
                    { db with joined_candidates := db.joined_candidates ++ [joined_row],
                              next_id := db.next_id + 1 }
                  let existing_income :=
                    db1.placement_incomes.find? (fun x => x.is_active && x.interview_id == interview.id)
                  let step :=
                    match existing_income with
                    | none =>
                      let income : PlacementIncome :=
                        { id := db1.next_id, interview_id := interview.id,
                          candidate_id := interview.candidate_id, job_id := interview.job_id,
                          total_receivable := receivable, total_received := 0,
                          balance := receivable,
                          due_date := body.placement_due_date.getD doj,
                          remarks := body.placement_remarks, is_active := true }
                      ({ db1 with placement_incomes := db1.placement_incomes ++ [income],
                                  next_id := db1.next_id + 1 }, some income.id)
                    | some income => (db1, some income.id)
                  let db2 := step.1
                  let new_vac : Int := max 0 (job.num_vacancies - 1)
                  let jobs3 :=
                    updateWhere db2.jobs (fun x => x.id == job.id)
                      (fun x => { x with num_vacancies := new_vac,
                                         status := if new_vac = 0 then .FULFILLED else x.status })
                  let db3 : DB := { db2 with jobs := jobs3 }
                  let cands4 :=
                    updateWhere db3.candidates (fun x => x.id == interview.candidate_id)
                      (fun x => { x with employment_status := .EMPLOYED })
                  let db4 : DB := { db3 with candidates := cands4 }
                  .ok (db4, step.2)
            | _, _ => .error (.badRequest "doj and salary are required when status is JOINED")
          else .ok (db, none)
        match side with
        | .error e => .error e
        | .ok (db4, placement_income_id) =>
          let interview2 := { interview with status := body.status }
          let ivs5 :=
            updateWhere db4.interviews (fun x => x.id == interview.id) (fun _ => interview2)
          let db5 : DB := { db4 with interviews := ivs5 }
          .ok (db5, { interview := interview2, placement_income_id := placement_income_id })

/-- The full PATCH /interviews/id/status pipeline: pydantic request
validation (Field gt=0 on salary and placement_total_receivable) runs before
the endpoint body; a failed validation is a 422 naming the bad fields. -/
def patch_interview_status (db : DB) (interview_id : Nat)
    (body : InterviewStatusUpdate) : Except ApiError (DB × InterviewStatusResult) :=
  match interviewSchemaErrorFields body with
  | [] => update_interview_status db interview_id body
  | fields => .error (.unprocessable (String.intercalate ", " fields))

/-- CandidatePaymentCreate request body (schemas/candidate_payment.py);
amount carries Field(gt=0). -/
structure CandidatePaymentCreate where
  amount : Int
  payment_date : Nat
  remarks : Option String
deriving DecidableEq, Repr

/-- pydantic validation of CandidatePaymentCreate: amount > 0. -/
def candidatePaymentSchemaOk (body : CandidatePaymentCreate) : Bool :=
  decide (0 < body.amount)

/-- CourseStructureFeeCreate request body (schemas/candidate.py);
total_fee carries Field(default=0, ge=0). -/
structure CourseStructureFeeCreate where
  total_fee : Int
  due_date : Option Nat
deriving DecidableEq, Repr

/-- pydantic validation of CourseStructureFeeCreate: total_fee ≥ 0. -/
def courseFeeSchemaOk (body : CourseStructureFeeCreate) : Bool :=
  decide (0 ≤ body.total_fee)

/-- Sum of amounts over the active candidate payments of one candidate
(the coalesce(sum(amount), 0) query in _recompute_joc_fee_balance). -/
def sumActiveCandidatePayments (db : DB) (candidate_id : Nat) : Int :=
  ((db.candidate_payments.filter
      (fun p => p.candidate_id == candidate_id && p.is_active)).map
    (fun p => p.amount)).sum

/-- _recompute_joc_fee_balance (app/api/v1/candidate_payments.py, lines
18-30).  The first statement of the Python function compares the candidate
status against CandidateStatus.JOC, but the CandidateStatus enum
(app/models/candidate.py) only has members REGISTERED, COURSE and FREE:
evaluating CandidateStatus.JOC raises AttributeError on every call, before
any row is read or written.  The faithful embedding therefore returns that
internal error unconditionally; the balance-recomputation body below the
stale member check is dead code. -/
def _recompute_joc_fee_balance (db : DB) (candidate : Candidate) :
    Except ApiError DB :=
  .error (.internalError "AttributeError: JOC is not a member of CandidateStatus")

/-- create_candidate_payment (app/api/v1/candidate_payments.py, lines
37-74): 404 when the candidate is missing or inactive; the next statement
builds the set containing CandidateStatus.CAPS, a member missing from the
enum, so every request that passes the 404 check raises AttributeError and
rolls back before any write. -/
def create_candidate_payment (db : DB) (candidate_id : Nat)
    (body : CandidatePaymentCreate) : Except ApiError (DB × CandidatePayment) :=
  if candidatePaymentSchemaOk body = false then
    .error (.unprocessable "Input should be greater than 0")
  else
    match db.candidates.find? (fun c => c.id == candidate_id) with
    | none => .error (.notFound "Candidate not found")
    | some candidate =>
      if candidate.is_active = false then .error (.notFound "Candidate not found")
      else .error (.internalError "AttributeError: CAPS is not a member of CandidateStatus")

/-- update_candidate_payment (app/api/v1/candidate_payments.py, lines
77-103): 404 checks on the payment and its candidate, then the staged field
updates, then _recompute_joc_fee_balance, which always raises, so the staged
write is rolled back. -/
def update_candidate_payment (db : DB) (payment_id : Nat)
    (body : CandidatePaymentCreate) : Except ApiError (DB × CandidatePayment) :=
  if candidatePaymentSchemaOk body = false then
    .error (.unprocessable "Input should be greater than 0")
  else
    match db.candidate_payments.find? (fun p => p.id == payment_id) with
    | none => .error (.notFound "Candidate payment not found")
    | some payment =>
      if payment.is_active = false then .error (.notFound "Candidate payment not found") else
      match db.candidates.find? (fun c => c.id == payment.candidate_id) with
      | none => .error (.notFound "Candidate not found")
      | some candidate =>
        if candidate.is_active = false then .error (.notFound "Candidate not found") else
        let payment2 := { payment with amount := body.amount,
                                       payment_date := body.payment_date,
                                       remarks := body.remarks }
        let staged_payments :=
          updateWhere db.candidate_payments (fun p => p.id == payment.id) (fun _ => payment2)
        let staged : DB := { db with candidate_payments := staged_payments }
        match _recompute_joc_fee_balance staged candidate with
        | .error e => .error e
        | .ok db2 => .ok (db2, payment2)

/-- delete_candidate_payment (app/api/v1/candidate_payments.py, lines
136-159): 404 checks, stages is_active := false, then calls
_recompute_joc_fee_balance, which always raises, rolling the flag flip back. -/
def delete_candidate_payment (db : DB) (payment_id : Nat) :
    Except ApiError (DB × CandidatePayment) :=
  match db.candidate_payments.find? (fun p => p.id == payment_id) with
  | none => .error (.notFound "Candidate payment not found")
  | some payment =>
    if payment.is_active = false then .error (.notFound "Candidate payment not found") else
    match db.candidates.find? (fun c => c.id == payment.candidate_id) with
    | none => .error (.notFound "Candidate not found")
    | some candidate =>
      if candidate.is_active = false then .error (.notFound "Candidate not found") else
      let payment2 := { payment with is_active := false }
      let staged_payments :=
        updateWhere db.candidate_payments (fun p => p.id == payment.id) (fun _ => payment2)
      let staged : DB := { db with candidate_payments := staged_payments }
      match _recompute_joc_fee_balance staged candidate with
      | .error e => .error e
      | .ok db2 => .ok (db2, payment2)

/-- PUT /candidates/id request body, restricted to the fields the fee policy
acts on (schemas/candidate.py, CandidateUpdate).  `status = none` models a
request that leaves status unset (model_dump(exclude_unset=True)). -/
structure CandidateUpdate where
  status : Option CandidateStatus
  fee_structure : Option CourseStructureFeeCreate
  initial_payment : Option CandidatePaymentCreate
deriving DecidableEq, Repr

/-- pydantic validation shared by the candidate update bodies. -/
def candidateFeePayloadSchemaOk (fee : Option CourseStructureFeeCreate)
    (pay : Option CandidatePaymentCreate) : Bool :=
  (match fee with
   | some f => courseFeeSchemaOk f
   | none => true) &&
  (match pay with
   | some p => candidatePaymentSchemaOk p
   | none => true)

/-- The fee row reached through the candidate.fee_structure relationship
(uselist=False, not filtered on is_active). -/
def candidateFeeStructure (db : DB) (candidate_id : Nat) : Option CourseStructureFee :=
  db.course_fees.find? (fun f => f.candidate_id == candidate_id)

/-- update_candidate (app/api/v1/candidates.py, lines 451-551), restricted
to the status / fee_structure / initial_payment logic.  For effective status
COURSE with a fee_structure payload: when no fee row exists a new one is
created with balance = total_fee; when a fee row exists the code computes
balance = total_fee - body.initial_payment.amount WITHOUT checking
initial_payment for None, so omitting initial_payment in that case raises
AttributeError and rolls the request back. -/
def update_candidate (db : DB) (candidate_id : Nat) (body : CandidateUpdate) :
    Except ApiError (DB × Candidate) :=
  if candidateFeePayloadSchemaOk body.fee_structure body.initial_payment = false then
    .error (.unprocessable "Invalid fee_structure or initial_payment")
  else
    match db.candidates.find? (fun c => c.id == candidate_id) with
    | none => .error (.notFound "Candidate not found")
    | some candidate =>
      if candidate.is_active = false then .error (.notFound "Candidate not found") else
      let candidate2 :=
        match body.status with
        | some s => { candidate with status := s }
        | none => candidate
      let cands1 :=
        updateWhere db.candidates (fun c => c.id == candidate.id) (fun _ => candidate2)
      let db1 : DB := { db with candidates := cands1 }
      match candidate2.status with
      | .FREE =>
        if body.fee_structure.isSome || body.initial_payment.isSome then
          .error (.badRequest "fee_structure and initial_payment are not allowed for FREE")
        else .ok (db1, candidate2)
      | .REGISTERED =>
        if body.fee_structure.isSome then
          .error (.badRequest "fee_structure is not allowed for REGISTERED")
        else
          match body.initial_payment with
          | some ip =>
            let payment : CandidatePayment :=
              { id := db1.next_id, candidate_id := candidate.id, amount := ip.amount,
                payment_date := ip.payment_date, created_at := db1.next_id,
                remarks := ip.remarks, is_active := true }
            let db2 : DB := { db1 with candidate_payments := db1.candidate_payments ++ [payment], next_id := db1.next_id + 1 }
            .ok (db2, candidate2)
          | none => .ok (db1, candidate2)
      | .COURSE =>
        let feeStep : Except ApiError DB :=
          match body.fee_structure with
          | none => .ok db1
          | some fee =>
            match candidateFeeStructure db1 candidate.id with
            | none =>
              let fee_row : CourseStructureFee :=
                { id := db1.next_id, candidate_id := candidate.id,
                  total_fee := fee.total_fee, balance := fee.total_fee,
                  due_date := fee.due_date, is_active := true }
              .ok { db1 with course_fees := db1.course_fees ++ [fee_row], next_id := db1.next_id + 1 }
            | some fee_row =>
              match body.initial_payment with
              | none =>
                .error (.internalError "AttributeError: NoneType has no attribute amount")
              | some ip =>
                let fees2 :=
                  updateWhere db1.course_fees (fun f => f.id == fee_row.id)
                    (fun f => { f with total_fee := fee.total_fee,
                                       due_date := fee.due_date,
                                       balance := fee.total_fee - ip.amount })
                .ok { db1 with course_fees := fees2 }
        match feeStep with
        | .error e => .error e
        | .ok db2 =>
          match body.initial_payment with
          | some ip =>
            let payment : CandidatePayment :=
              { id := db2.next_id, candidate_id := candidate.id, amount := ip.amount,
                payment_date := ip.payment_date, created_at := db2.next_id,
                remarks := ip.remarks, is_active := true }
            let db3 : DB := { db2 with candidate_payments := db2.candidate_payments ++ [payment], next_id := db2.next_id + 1 }
            .ok (db3, candidate2)
          | none => .ok (db2, candidate2)

/-- PUT /candidates/id/status request body (schemas/candidate.py,
CandidateStatusChange). -/
structure CandidateStatusChange where
  status : CandidateStatus
  fee_structure : Option CourseStructureFeeCreate
  initial_payment : Option CandidatePaymentCreate
deriving DecidableEq, Repr

/-- The initial payment amount taken from the request, 0 when absent
(candidates.py line 681). -/
def requestInitialAmount (body : CandidateStatusChange) : Int :=
  match body.initial_payment with
  | some ip => ip.amount
  | none => 0

/-- update_candidate_status (app/api/v1/candidates.py, lines 630-721):
sets candidate.status to the requested value, then enforces the fee policy.
For COURSE with a fee_structure payload, the fee balance is computed from
the request alone: a fresh fee row gets balance = max(total_fee -
initial_payment_amount, 0); an existing fee row gets balance =
max(total_fee - initial_payment.amount, 0) when an initial payment is
supplied and balance = total_fee otherwise.  Historical payments are never
summed on this path.  An initial_payment, when supplied for REGISTERED or
COURSE, is inserted as a new active CandidatePayment row. -/
def update_candidate_status (db : DB) (candidate_id : Nat)
    (body : CandidateStatusChange) : Except ApiError (DB × Candidate) :=
  if candidateFeePayloadSchemaOk body.fee_structure body.initial_payment = false then
    .error (.unprocessable "Invalid fee_structure or initial_payment")
  else
    match db.candidates.find? (fun c => c.id == candidate_id) with
    | none => .error (.notFound "Candidate not found")
    | some candidate =>
      if candidate.is_active = false then .error (.notFound "Candidate not found") else
      let candidate2 := { candidate with status := body.status }
      let cands1 :=
        updateWhere db.candidates (fun c => c.id == candidate.id) (fun _ => candidate2)
      let db1 : DB := { db with candidates := cands1 }
      match body.status with
      | .FREE =>
        if body.fee_structure.isSome || body.initial_payment.isSome then
          .error (.badRequest "fee_structure and initial_payment are not allowed for FREE")
        else .ok (db1, candidate2)
      | .REGISTERED =>
        if body.fee_structure.isSome then
          .error (.badRequest "fee_structure is not allowed for REGISTERED")
        else
          match body.initial_payment with
          | some ip =>
            let payment : CandidatePayment :=
              { id := db1.next_id, candidate_id := candidate.id, amount := ip.amount,
                payment_date := ip.payment_date, created_at := db1.next_id,
                remarks := ip.remarks, is_active := true }
            let db2 : DB := { db1 with candidate_payments := db1.candidate_payments ++ [payment], next_id := db1.next_id + 1 }
            .ok (db2, candidate2)
          | none => .ok (db1, candidate2)
      | .COURSE =>
        let db2 : DB :=
          match body.fee_structure with
          | none => db1
          | some fee =>
            match candidateFeeStructure db1 candidate.id with
            | none =>
              let fee_row : CourseStructureFee :=
                { id := db1.next_id, candidate_id := candidate.id,
                  total_fee := fee.total_fee,
                  balance := max (fee.total_fee - requestInitialAmount body) 0,
                  due_date := fee.due_date, is_active := true }
              { db1 with course_fees := db1.course_fees ++ [fee_row], next_id := db1.next_id + 1 }
            | some fee_row =>
              let newBal : Int :=
                match body.initial_payment with
                | some ip => max (fee.total_fee - ip.amount) 0
                | none => fee.total_fee
              let fees2 :=
                updateWhere db1.course_fees (fun f => f.id == fee_row.id)
                  (fun f => { f with total_fee := fee.total_fee,
                                     due_date := fee.due_date,
                                     balance := newBal })
              { db1 with course_fees := fees2 }
        match body.initial_payment with
        | some ip =>
          let payment : CandidatePayment :=
            { id := db2.next_id, candidate_id := candidate.id, amount := ip.amount,
              payment_date := ip.payment_date, created_at := db2.next_id,
              remarks := ip.remarks, is_active := true }
          let db3 : DB := { db2 with candidate_payments := db2.candidate_payments ++ [payment], next_id := db2.next_id + 1 }
          .ok (db3, candidate2)
        | none => .ok (db2, candidate2)

/-- PlacementIncomePaymentCreate request body
(schemas/placement_income_payment.py); amount carries Field(gt=0). -/
structure PlacementIncomePaymentCreate where
  amount : Int
  paid_date : Nat
  remarks : Option String
deriving DecidableEq, Repr

/-- pydantic validation of PlacementIncomePaymentCreate: amount > 0. -/
def placementPaymentCreateSchemaOk (body : PlacementIncomePaymentCreate) : Bool :=
  decide (0 < body.amount)

/-- PlacementIncomePaymentUpdate request body: all fields optional
(model_dump(exclude_unset=True)); a present amount carries Field(gt=0). -/
structure PlacementIncomePaymentUpdate where
  amount : Option Int
  paid_date : Option Nat
  remarks : Option String
  is_active : Option Bool
deriving DecidableEq, Repr

/-- pydantic validation of PlacementIncomePaymentUpdate. -/
def placementPaymentUpdateSchemaOk (body : PlacementIncomePaymentUpdate) : Bool :=
  match body.amount with
  | some a => decide (0 < a)
  | none => true

/-- Sum of amounts over the active payments of one placement income
(the coalesce(sum(amount), 0) query in _recompute_placement_income_totals). -/
def sumActivePlacementPayments (db : DB) (income_id : Nat) : Int :=
  ((db.placement_income_payments.filter
      (fun p => p.placement_income_id == income_id && p.is_active)).map
    (fun p => p.amount)).sum

/-- _recompute_placement_income_totals (app/api/v1/placement_incomes.py,
lines 31-39): recomputes total_received as the sum of the active payment
amounts of the income and balance as max(0, total_receivable -
total_received), writing both back onto the income row. -/
def _recompute_placement_income_totals (db : DB) (income_id : Nat) : DB :=
  let total_received := sumActivePlacementPayments db income_id
  let incomes2 :=
    updateWhere db.placement_incomes (fun i => i.id == income_id)
      (fun i => { i with total_received := total_received,
                         balance := max 0 (i.total_receivable - total_received) })
  { db with placement_incomes := incomes2 }

/-- create_placement_income_payment (placement_incomes.py, lines 165-193):
404 when the income is missing or inactive, then insert the payment, then
recompute the income totals, all committed together. -/
def create_placement_income_payment (db : DB) (income_id : Nat)
    (body : PlacementIncomePaymentCreate) :
    Except ApiError (DB × PlacementIncomePayment) :=
  if placementPaymentCreateSchemaOk body = false then
    .error (.unprocessable "Input should be greater than 0")
  else
    match db.placement_incomes.find? (fun i => i.id == income_id) with
    | none => .error (.notFound "Placement income not found")
    | some income =>
      if income.is_active = false then .error (.notFound "Placement income not found") else
      let payment : PlacementIncomePayment :=
        { id := db.next_id, placement_income_id := income.id, amount := body.amount,
          paid_date := body.paid_date, created_at := db.next_id,
          remarks := body.remarks, is_active := true }
      let db1 : DB :=
        { db with placement_income_payments := db.placement_income_payments ++ [payment],
                  next_id := db.next_id + 1 }
      let db2 := _recompute_placement_income_totals db1 income.id
      .ok (db2, payment)

/-- update_placement_income_payment (placement_incomes.py, lines 224-250):
404 checks on payment and income, apply the provided fields, recompute. -/
def update_placement_income_payment (db : DB) (payment_id : Nat)
    (body : PlacementIncomePaymentUpdate) :
    Except ApiError (DB × PlacementIncomePayment) :=
  if placementPaymentUpdateSchemaOk body = false then
    .error (.unprocessable "Input should be greater than 0")
  else
    match db.placement_income_payments.find? (fun p => p.id == payment_id) with
    | none => .error (.notFound "Placement income payment not found")
    | some payment =>
      if payment.is_active = false then
        .error (.notFound "Placement income payment not found")
      else
        match db.placement_incomes.find? (fun i => i.id == payment.placement_income_id) with
        | none => .error (.notFound "Placement income not found")
        | some income =>
          if income.is_active = false then .error (.notFound "Placement income not found") else
          let payment2 : PlacementIncomePayment :=
            { payment with
                amount := body.amount.getD payment.amount,
                paid_date := body.paid_date.getD payment.paid_date,
                remarks := match body.remarks with
                           | some r => some r
                           | none => payment.remarks,
                is_active := body.is_active.getD payment.is_active }
          let pays2 :=
            updateWhere db.placement_income_payments (fun p => p.id == payment.id)
              (fun _ => payment2)
          let db1 : DB := { db with placement_income_payments := pays2 }
          let db2 := _recompute_placement_income_totals db1 income.id
          .ok (db2, payment2)

/-- delete_placement_income_payment (placement_incomes.py, lines 253-276):
404 checks, soft-delete the payment by setting is_active to false, recompute. -/
def delete_placement_income_payment (db : DB) (payment_id : Nat) :
    Except ApiError (DB × PlacementIncomePayment) :=
  match db.placement_income_payments.find? (fun p => p.id == payment_id) with
  | none => .error (.notFound "Placement income payment not found")
  | some payment =>
    if payment.is_active = false then
      .error (.notFound "Placement income payment not found")
    else
      match db.placement_incomes.find? (fun i => i.id == payment.placement_income_id) with
      | none => .error (.notFound "Placement income not found")
      | some income =>
        if income.is_active = false then .error (.notFound "Placement income not found") else
        let payment2 : PlacementIncomePayment := { payment with is_active := false }
        let pays2 :=
          updateWhere db.placement_income_payments (fun p => p.id == payment.id)
            (fun _ => payment2)
        let db1 : DB := { db with placement_income_payments := pays2 }
        let db2 := _recompute_placement_income_totals db1 income.id
        .ok (db2, payment2)

/-- The three payment mutations of one placement income, bundled so a single
statement can quantify over any committed payment mutation. -/
inductive PlacementPaymentOp
  | create (income_id : Nat) (body : PlacementIncomePaymentCreate)
  | update (payment_id : Nat) (body : PlacementIncomePaymentUpdate)
  | delete (payment_id : Nat)
deriving DecidableEq, Repr

/-- Dispatch a placement-income payment mutation to its endpoint. -/
def apply_placement_payment_op (db : DB) :
    PlacementPaymentOp → Except ApiError (DB × PlacementIncomePayment)
  | .create income_id body => create_placement_income_payment db income_id body
  | .update payment_id body => update_placement_income_payment db payment_id body
  | .delete payment_id => delete_placement_income_payment db payment_id

/-- delete_payment for company payments (app/api/v1/payments.py, lines
327-340): 404 when the row is missing, otherwise session.delete removes the
row permanently (no is_active flag exists on this table) and the deleted
row data is returned. -/
def delete_payment (db : DB) (payment_id : Nat) :
    Except ApiError (DB × CompanyPayment) :=
  match db.company_payments.find? (fun p => p.id == payment_id) with
  | none => .error (.notFound "Payment not found")
  | some payment =>
    let remaining := db.company_payments.filter (fun p => !(p.id == payment_id))
    .ok ({ db with company_payments := remaining }, payment)

/-- One normalized row of the unified payment ledger (payments.py, the
union_all of company_stmt, candidate_stmt and placement_stmt). -/
structure LedgerRow where
  id : Nat
  source : String
  payment_date : Nat
  amount : Int
  created_at : Nat
  is_active : Bool
  placement_income_id : Option Nat
  company_id : Option Nat
  company_name : Option String
  candidate_id : Option Nat
  candidate_name : Option String
  job_id : Option Nat
  job_title : Option String
  interview_id : Option Nat
  remarks : Option String
  candidate_payment_type : Option String
deriving DecidableEq, Repr

/-- company_stmt (payments.py, lines 180-201): company payments joined to
their company; is_active is the literal True and the candidate/job context
columns are null. -/
def ledger_company_rows (db : DB) : List LedgerRow :=
  db.company_payments.filterMap (fun p =>
    match db.companies.find? (fun c => c.id == p.company_id) with
    | none => none
    | some c => some
      { id := p.id, source := "COMPANY_PAYMENT", payment_date := p.payment_date,
        amount := p.amount, created_at := p.created_at, is_active := true,
        placement_income_id := none, company_id := some p.company_id,
        company_name := some c.name, candidate_id := none, candidate_name := none,
        job_id := none, job_title := none, interview_id := none, remarks := none,
        candidate_payment_type := none })

/-- candidate_stmt (payments.py, lines 203-230): candidate payments joined
to their candidate; source and candidate_payment_type are COURSE_FEE when
the owning candidate has current status COURSE and REGISTRATION_FEE
otherwise. -/
def ledger_candidate_rows (db : DB) : List LedgerRow :=
  db.candidate_payments.filterMap (fun p =>
    match db.candidates.find? (fun c => c.id == p.candidate_id) with
    | none => none
    | some c =>
      let src := if c.status = .COURSE then "COURSE_FEE" else "REGISTRATION_FEE"
      some
        { id := p.id, source := src, payment_date := p.payment_date,
          amount := p.amount, created_at := p.created_at, is_active := p.is_active,
          placement_income_id := none, company_id := none, company_name := none,
          candidate_id := some p.candidate_id, candidate_name := c.full_name,
          job_id := none, job_title := none, interview_id := none,
          remarks := p.remarks, candidate_payment_type := some src })

/-- placement_stmt (payments.py, lines 232-256): placement income payments
joined through their income to job, company and candidate. -/
def ledger_placement_rows (db : DB) : List LedgerRow :=
  db.placement_income_payments.filterMap (fun p =>
    match db.placement_incomes.find? (fun i => i.id == p.placement_income_id) with
    | none => none
    | some income =>
      match db.jobs.find? (fun j => j.id == income.job_id) with
      | none => none
      | some job =>
        match db.companies.find? (fun c => c.id == job.company_id) with
        | none => none
        | some company =>
          match db.candidates.find? (fun c => c.id == income.candidate_id) with
          | none => none
          | some cand => some
            { id := p.id, source := "PLACEMENT_INCOME", payment_date := p.paid_date,
              amount := p.amount, created_at := p.created_at, is_active := p.is_active,
              placement_income_id := some p.placement_income_id,
              company_id := some job.company_id, company_name := some company.name,
              candidate_id := some income.candidate_id, candidate_name := cand.full_name,
              job_id := some income.job_id, job_title := some job.title,
              interview_id := some income.interview_id, remarks := p.remarks,
              candidate_payment_type := none })

/-- The union_all of the three streams (payments.py, line 258). -/
def ledger_merged_rows (db : DB) : List LedgerRow :=
  ledger_company_rows db ++ ledger_candidate_rows db ++ ledger_placement_rows db

/-- GET /payments/ledger query parameters.  `source = []` models both an
absent source filter and an empty list (both falsy in `if source:`). -/
structure PaymentLedgerQuery where
  page : Nat
  limit : Nat
  source : List String
  start_date : Option Nat
  end_date : Option Nat
  company_id : Option Nat
  candidate_id : Option Nat
  job_id : Option Nat
  min_amount : Option Int
  max_amount : Option Int
  include_inactive : Bool
deriving DecidableEq, Repr

/-- The WHERE clause built in payments.py, lines 260-278, applied uniformly
to the merged rows.  An SQL comparison against a NULL column is not true, so
the id filters require the row column to be present and equal. -/
def ledger_row_matches (q : PaymentLedgerQuery) (r : LedgerRow) : Bool :=
  (decide (q.source = []) || q.source.contains r.source) &&
  (match q.start_date with
   | some d => decide (d ≤ r.payment_date)
   | none => true) &&
  (match q.end_date with
   | some d => decide (r.payment_date ≤ d)
   | none => true) &&
  (match q.company_id with
   | some cid => r.company_id == some cid
   | none => true) &&
  (match q.candidate_id with
   | some cid => r.candidate_id == some cid
   | none => true) &&
  (match q.job_id with
   | some jid => r.job_id == some jid
   | none => true) &&
  (match q.min_amount with
   | some m => decide (m ≤ r.amount)
   | none => true) &&
  (match q.max_amount with
   | some m => decide (r.amount ≤ m)
   | none => true) &&
  (q.include_inactive || r.is_active)

/-- ORDER BY payment_date DESC, created_at DESC (payments.py, lines
280-283) as a boolean total preorder: a comes no later than b in the output
when a has the later payment_date, or equal payment_date and no earlier
created_at. -/
def ledgerLE (a b : LedgerRow) : Bool :=
  decide (b.payment_date < a.payment_date) ||
    (a.payment_date == b.payment_date && decide (b.created_at ≤ a.created_at))

/-- The paginated ledger response. -/
structure PaginatedLedger where
  items : List LedgerRow
  total : Nat
deriving DecidableEq, Repr

/-- list_payment_ledger (payments.py, lines 161-298): merge the three
streams, filter, sort by payment_date desc then created_at desc, page with
limit/offset = (page-1)*limit, and count the total over the filtered merged
set before paging. -/
def list_payment_ledger (db : DB) (q : PaymentLedgerQuery) : PaginatedLedger :=
  let rows := (ledger_merged_rows db).filter (ledger_row_matches q)
  let sorted := rows.mergeSort ledgerLE
  { items := (sorted.drop ((q.page - 1) * q.limit)).take q.limit,
    total := rows.length }

/-- Whether a request committed (true) or rolled back with an error. -/
def isOkResult {α : Type} (r : Except ApiError (DB × α)) : Bool :=
  match r with
  | .ok _ => true
  | .error _ => false

/-- The placement_income_id carried by a successful status response. -/
def resultPlacementIncomeId (r : Except ApiError (DB × InterviewStatusResult)) : Option Nat :=
  match r with
  | .ok (_, pl) => pl.placement_income_id
  | .error _ => none

/-- The interview status carried by a successful status response. -/
def resultInterviewStatus (r : Except ApiError (DB × InterviewStatusResult)) :
    Option InterviewStatus :=
  match r with
  | .ok (_, pl) => some pl.interview.status
  | .error _ => none

/-! Concrete database states used to instantiate and to refute the claims.
Each state is reachable through the modelled endpoints (rows mirror what the
create endpoints insert). -/

/-- C1 input: an interview whose placement income was pre-created through
POST /placement-incomes and already carries a received payment of 100. -/
def dbC1 : DB :=
  { candidates := [{ id := 3, full_name := some "Asha", status := .FREE,
                     employment_status := .UNEMPLOYED, is_active := true }],
    course_fees := [], candidate_payments := [],
    jobs := [{ id := 2, company_id := 1, title := "Dev", num_vacancies := 1,
               status := .OPEN, is_active := true }],
    interviews := [{ id := 10, company_id := 1, job_id := 2, candidate_id := 3,
                     status := .SCHEDULED, is_active := true }],
    joined_candidates := [],
    placement_incomes := [{ id := 20, interview_id := 10, candidate_id := 3, job_id := 2,
                            total_receivable := 500, total_received := 100, balance := 400,
                            due_date := 50, remarks := none, is_active := true }],
    placement_income_payments := [{ id := 21, placement_income_id := 20, amount := 100,
                                    paid_date := 40, created_at := 40, remarks := none,
                                    is_active := true }],
    companies := [{ id := 1, name := "Acme", is_active := true }],
    company_payments := [], next_id := 100 }

/-- C1 JOINED request: doj 60, salary 50000, receivable 20000. -/
def bodyC1 : InterviewStatusUpdate :=
  { status := .JOINED, doj := some 60, salary := some 50000,
    placement_total_receivable := some 20000, placement_due_date := none,
    placement_remarks := none }

/-- C1 witness input: the same scenario with no pre-existing placement
income for the interview. -/
def dbC1w : DB :=
  { dbC1 with placement_incomes := [], placement_income_payments := [] }

/-- C2 input: a COURSE candidate created with total_fee 10000 and initial
payment 3000 (fee balance 7000, one active payment row). -/
def dbC2 : DB :=
  { candidates := [{ id := 3, full_name := some "Card", status := .COURSE,
                     employment_status := .UNEMPLOYED, is_active := true }],
    course_fees := [{ id := 4, candidate_id := 3, total_fee := 10000, balance := 7000,
                      due_date := none, is_active := true }],
    candidate_payments := [{ id := 5, candidate_id := 3, amount := 3000, payment_date := 10,
                             created_at := 10, remarks := none, is_active := true }],
    jobs := [], interviews := [], joined_candidates := [], placement_incomes := [],
    placement_income_payments := [], companies := [], company_payments := [],
    next_id := 50 }

/-- C2 status-change request: stay COURSE, resubmit total_fee 10000 with a
fresh initial payment of 2000. -/
def bodyC2 : CandidateStatusChange :=
  { status := .COURSE,
    fee_structure := some { total_fee := 10000, due_date := none },
    initial_payment := some { amount := 2000, payment_date := 20, remarks := none } }

/-- C3 input: one active placement income with no payments yet. -/
def dbC3 : DB :=
  { candidates := [], course_fees := [], candidate_payments := [], jobs := [],
    interviews := [], joined_candidates := [],
    placement_incomes := [{ id := 1, interview_id := 9, candidate_id := 3, job_id := 2,
                            total_receivable := 1000, total_received := 0, balance := 1000,
                            due_date := 99, remarks := none, is_active := true }],
    placement_income_payments := [], companies := [], company_payments := [],
    next_id := 30 }

/-- C3 witness mutation: record a payment of 400 against income 1. -/
def opC3 : PlacementPaymentOp :=
  .create 1 { amount := 400, paid_date := 5, remarks := none }

/-- The C3 witness run. -/
def runC3 : Except ApiError (DB × PlacementIncomePayment) :=
  apply_placement_payment_op dbC3 opC3

/-- The committed state of the C3 witness run. -/
def dbC3sub : DB := commitState dbC3 runC3

/-- The payment returned by the C3 witness run. -/
def payC3 : PlacementIncomePayment :=
  match runC3 with
  | .ok (_, p) => p
  | .error _ => { id := 0, placement_income_id := 0, amount := 0, paid_date := 0,
                  created_at := 0, remarks := none, is_active := false }

/-- The recomputed income row of the C3 witness run: receivable 1000,
received 400, balance 600. -/
def incC3 : PlacementIncome :=
  { id := 1, interview_id := 9, candidate_id := 3, job_id := 2, total_receivable := 1000,
    total_received := 400, balance := 600, due_date := 99, remarks := none,
    is_active := true }

/-- C4 input: candidate 7 is COURSE with an active fee structure (the claim
says a payment must succeed here) and candidate 8 is REGISTERED. -/
def dbC4 : DB :=
  { candidates := [{ id := 7, full_name := some "Cee", status := .COURSE,
                     employment_status := .UNEMPLOYED, is_active := true },
                   { id := 8, full_name := some "Reg", status := .REGISTERED,
                     employment_status := .UNEMPLOYED, is_active := true }],
    course_fees := [{ id := 9, candidate_id := 7, total_fee := 5000, balance := 5000,
                      due_date := none, is_active := true }],
    candidate_payments := [], jobs := [], interviews := [], joined_candidates := [],
    placement_incomes := [], placement_income_payments := [], companies := [],
    company_payments := [], next_id := 40 }

/-- C4 payment request. -/
def bodyC4 : CandidatePaymentCreate :=
  { amount := 1000, payment_date := 15, remarks := none }

/-- C5 input: a schedulable interview with all referenced entities active. -/
def dbC5 : DB :=
  { candidates := [{ id := 3, full_name := some "Nia", status := .FREE,
                     employment_status := .UNEMPLOYED, is_active := true }],
    course_fees := [], candidate_payments := [],
    jobs := [{ id := 2, company_id := 1, title := "Ops", num_vacancies := 1,
               status := .OPEN, is_active := true }],
    interviews := [{ id := 1, company_id := 1, job_id := 2, candidate_id := 3,
                     status := .SCHEDULED, is_active := true }],
    joined_candidates := [], placement_incomes := [], placement_income_payments := [],
    companies := [{ id := 1, name := "Opsco", is_active := true }],
    company_payments := [], next_id := 10 }

/-- C5 counterexample request: salary and doj absent while the receivable is
present and non-positive. -/
def bodyC5x : InterviewStatusUpdate :=
  { status := .JOINED, doj := none, salary := none,
    placement_total_receivable := some 0, placement_due_date := none,
    placement_remarks := none }

/-- C5 witness request with a non-positive salary. -/
def bodyC5a : InterviewStatusUpdate :=
  { status := .JOINED, doj := some 5, salary := some 0,
    placement_total_receivable := some 7, placement_due_date := none,
    placement_remarks := none }

/-- C5 witness request with doj and salary absent. -/
def bodyC5b : InterviewStatusUpdate :=
  { status := .JOINED, doj := none, salary := none,
    placement_total_receivable := none, placement_due_date := none,
    placement_remarks := none }

/-- C5 witness request with doj and salary present and receivable absent. -/
def bodyC5c : InterviewStatusUpdate :=
  { status := .JOINED, doj := some 5, salary := some 100,
    placement_total_receivable := none, placement_due_date := none,
    placement_remarks := none }

/-- C6 witness input: interview 11 already carries the active placement
income 22 (created through POST /placement-incomes), vacancies remain. -/
def dbC6w : DB :=
  { candidates := [{ id := 5, full_name := some "Bo", status := .FREE,
                     employment_status := .UNEMPLOYED, is_active := true }],
    course_fees := [], candidate_payments := [],
    jobs := [{ id := 4, company_id := 1, title := "QA", num_vacancies := 2,
               status := .OPEN, is_active := true }],
    interviews := [{ id := 11, company_id := 1, job_id := 4, candidate_id := 5,
                     status := .SCHEDULED, is_active := true }],
    joined_candidates := [],
    placement_incomes := [{ id := 22, interview_id := 11, candidate_id := 5, job_id := 4,
                            total_receivable := 800, total_received := 0, balance := 800,
                            due_date := 70, remarks := none, is_active := true }],
    placement_income_payments := [],
    companies := [{ id := 1, name := "Beta", is_active := true }],
    company_payments := [], next_id := 200 }

/-- C6 JOINED request. -/
def bodyC6 : InterviewStatusUpdate :=
  { status := .JOINED, doj := some 80, salary := some 1000,
    placement_total_receivable := some 900, placement_due_date := none,
    placement_remarks := none }

/-- C6 counterexample input: no pre-existing income, so the first JOINED
invocation succeeds and the second is a literal re-invocation. -/
def dbC6x : DB :=
  { dbC6w with placement_incomes := [], next_id := 300 }

/-- The committed state after the first JOINED invocation on dbC6x. -/
def dbC6x2 : DB := commitState dbC6x (update_interview_status dbC6x 11 bodyC6)

/-- C7 input: one payment in each stream, dated so the expected order is
placement, candidate, company. -/
def dbC7 : DB :=
  { candidates := [{ id := 3, full_name := some "Cora", status := .COURSE,
                     employment_status := .UNEMPLOYED, is_active := true }],
    course_fees := [],
    candidate_payments := [{ id := 4, candidate_id := 3, amount := 300, payment_date := 200,
                             created_at := 2, remarks := none, is_active := true }],
    jobs := [{ id := 5, company_id := 1, title := "Dev", num_vacancies := 1,
               status := .OPEN, is_active := true }],
    interviews := [], joined_candidates := [],
    placement_incomes := [{ id := 6, interview_id := 9, candidate_id := 3, job_id := 5,
                            total_receivable := 1000, total_received := 1000, balance := 0,
                            due_date := 50, remarks := none, is_active := true }],
    placement_income_payments := [{ id := 7, placement_income_id := 6, amount := 1000,
                                    paid_date := 300, created_at := 3, remarks := none,
                                    is_active := true }],
    companies := [{ id := 1, name := "Acme", is_active := true }],
    company_payments := [{ id := 2, company_id := 1, amount := 500, payment_date := 100,
                           created_at := 1, remarks := none }],
    next_id := 90 }

/-- C7 default query: first page, no filters, inactive rows excluded. -/
def qC7 : PaymentLedgerQuery :=
  { page := 1, limit := 20, source := [], start_date := none, end_date := none,
    company_id := none, candidate_id := none, job_id := none, min_amount := none,
    max_amount := none, include_inactive := true }

/-- C8 input: a COURSE candidate who already has an active fee structure. -/
def dbC8 : DB :=
  { candidates := [{ id := 3, full_name := some "Uma", status := .COURSE,
                     employment_status := .UNEMPLOYED, is_active := true }],
    course_fees := [{ id := 4, candidate_id := 3, total_fee := 10000, balance := 10000,
                      due_date := none, is_active := true }],
    candidate_payments := [], jobs := [], interviews := [], joined_candidates := [],
    placement_incomes := [], placement_income_payments := [], companies := [],
    company_payments := [], next_id := 60 }

/-- C8 update request: new fee terms, no initial_payment (the claim and the
spec policy table say this must succeed). -/
def bodyC8 : CandidateUpdate :=
  { status := none, fee_structure := some { total_fee := 12000, due_date := some 44 },
    initial_payment := none }

/-- C9 input: interview 5 already JOINED and active. -/
def dbC9 : DB :=
  { candidates := [{ id := 3, full_name := some "Jo", status := .FREE,
                     employment_status := .EMPLOYED, is_active := true }],
    course_fees := [], candidate_payments := [],
    jobs := [{ id := 2, company_id := 1, title := "Dev", num_vacancies := 0,
               status := .FULFILLED, is_active := true }],
    interviews := [{ id := 5, company_id := 1, job_id := 2, candidate_id := 3,
                     status := .JOINED, is_active := true }],
    joined_candidates := [{ id := 6, job_id := 2, candidate_id := 3, Date_of_joining := 60,
                            salary := 50000, remarks := none, is_active := true }],
    placement_incomes := [], placement_income_payments := [],
    companies := [{ id := 1, name := "Acme", is_active := true }],
    company_payments := [], next_id := 70 }

/-- C9 request: move the JOINED interview to ON_HOLD. -/
def bodyC9 : InterviewStatusUpdate :=
  { status := .ON_HOLD, doj := none, salary := none,
    placement_total_receivable := none, placement_due_date := none,
    placement_remarks := none }

/-- C10 input: two company payments, a placement income with one payment,
and a candidate payment. -/
def dbC10 : DB :=
  { candidates := [{ id := 4, full_name := some "Del", status := .REGISTERED,
                     employment_status := .UNEMPLOYED, is_active := true }],
    course_fees := [],
    candidate_payments := [{ id := 8, candidate_id := 4, amount := 100, payment_date := 5,
                             created_at := 5, remarks := none, is_active := true }],
    jobs := [{ id := 5, company_id := 1, title := "Dev", num_vacancies := 1,
               status := .OPEN, is_active := true }],
    interviews := [], joined_candidates := [],
    placement_incomes := [{ id := 6, interview_id := 9, candidate_id := 4, job_id := 5,
                            total_receivable := 1000, total_received := 600, balance := 400,
                            due_date := 50, remarks := none, is_active := true }],
    placement_income_payments := [{ id := 7, placement_income_id := 6, amount := 600,
                                    paid_date := 300, created_at := 3, remarks := none,
                                    is_active := true }],
    companies := [{ id := 1, name := "Acme", is_active := true }],
    company_payments := [{ id := 2, company_id := 1, amount := 500, payment_date := 100,
                           created_at := 1, remarks := none },
                         { id := 3, company_id := 1, amount := 700, payment_date := 110,
                           created_at := 2, remarks := none }],
    next_id := 95 }

/-- The C10 company-payment delete run. -/
def runC10 : Except ApiError (DB × CompanyPayment) := delete_payment dbC10 2

/-- The committed state after deleting company payment 2. -/
def dbC10sub : DB := commitState dbC10 runC10

/-- The deleted company payment returned by the C10 run. -/
def payC10 : CompanyPayment :=
  match runC10 with
  | .ok (_, p) => p
  | .error _ => { id := 0, company_id := 0, amount := 0, payment_date := 0,
                  created_at := 0, remarks := none }

/-- The C10 placement-payment delete run. -/
def runC10p : Except ApiError (DB × PlacementIncomePayment) :=
  delete_placement_income_payment dbC10 7

/-- The committed state after soft-deleting placement payment 7. -/
def dbC10psub : DB := commitState dbC10 runC10p

/-- The soft-deleted placement payment returned by the C10 run. -/
def payC10p : PlacementIncomePayment :=
  match runC10p with
  | .ok (_, p) => p
  | .error _ => { id := 0, placement_income_id := 0, amount := 0, paid_date := 0,
                  created_at := 0, remarks := none, is_active := true }

/-- A ledger query with include_inactive set, used to show deleted company
payments stay invisible even then. -/
def qC10 : PaymentLedgerQuery :=
  { page := 1, limit := 20, source := [], start_date := none, end_date := none,
    company_id := none, candidate_id := none, job_id := none, min_amount := none,
    max_amount := none, include_inactive := true }

/-! Shared helper lemmas about the list primitives of the embedding. -/

/-- find? over a row update: when the search predicate is stable under the
update, the first hit is the updated image of the original first hit. -/
theorem find?_updateWhere {α : Type} (p q : α → Bool) (f : α → α)
    (hcompat : ∀ x, p (if q x then f x else x) = p x) :
    ∀ (l : List α) (a : α), l.find? p = some a →
      (updateWhere l q f).find? p = some (if q a then f a else a) := by
  intro l
  induction l with
  | nil => intro a h; simp at h
  | cons x xs ih =>
    intro a h
    cases hx : p x with
    | false =>
      rw [List.find?_cons_of_neg _ (by simp [hx])] at h
      have hu : p (if q x then f x else x) = false := (hcompat x).trans hx
      show List.find? p (((if q x then f x else x)) :: updateWhere xs q f) = _
      rw [List.find?_cons_of_neg _ (by simp [hu])]
      exact ih a h
    | true =>
      rw [List.find?_cons_of_pos _ hx] at h
      injection h with hxa
      subst hxa
      have hu : p (if q x then f x else x) = true := (hcompat x).trans hx
      show List.find? p (((if q x then f x else x)) :: updateWhere xs q f) = _
      rw [List.find?_cons_of_pos _ hu]

/-- find? over an append whose first part has no hit. -/
theorem find?_append_of_none {α : Type} (p : α → Bool) :
    ∀ (l₁ l₂ : List α), l₁.find? p = none →
      (l₁ ++ l₂).find? p = l₂.find? p := by
  intro l₁
  induction l₁ with
  | nil => intro l₂ _; rfl
  | cons x xs ih =>
    intro l₂ h
    cases hx : p x with
    | false =>
      rw [List.find?_cons_of_neg _ (by simp [hx])] at h
      show List.find? p (x :: (xs ++ l₂)) = _
      rw [List.find?_cons_of_neg _ (by simp [hx])]
      exact ih l₂ h
    | true => rw [List.find?_cons_of_pos _ hx] at h; cases h

/-- Membership images through a row update. -/
theorem of_mem_updateWhere {α : Type} {l : List α} {q : α → Bool} {f : α → α} {b : α}
    (h : b ∈ updateWhere l q f) : ∃ a ∈ l, b = if q a then f a else a := by
  simp only [updateWhere, List.mem_map] at h
  obtain ⟨a, ha, hab⟩ := h
  exact ⟨a, ha, hab.symm⟩

/-- A row survives a row update as its image. -/
theorem mem_updateWhere_of_mem {α : Type} {l : List α} (q : α → Bool) (f : α → α) {a : α}
    (h : a ∈ l) : (if q a then f a else a) ∈ updateWhere l q f :=
  List.mem_map_of_mem _ h

/-- Balance recomputation touches only the placement_incomes table. -/
theorem recompute_payments_eq (db : DB) (iid : Nat) :
    (_recompute_placement_income_totals db iid).placement_income_payments =
      db.placement_income_payments := rfl

/-- After recomputation, every income row carrying the recomputed id
satisfies both derived-field equations of the claim. -/
theorem recompute_placement_invariant (db : DB) (iid : Nat) :
    ∀ inc ∈ (_recompute_placement_income_totals db iid).placement_incomes,
      inc.id = iid →
      inc.total_received = sumActivePlacementPayments db iid ∧
      inc.balance = max 0 (inc.total_receivable - inc.total_received) := by
  intro inc hmem hid
  have hmem2 := of_mem_updateWhere (l := db.placement_incomes)
    (q := fun i => i.id == iid)
    (f := fun i => { i with total_received := sumActivePlacementPayments db iid,
                            balance := max 0 (i.total_receivable - sumActivePlacementPayments db iid) })
    (b := inc) (by simpa [_recompute_placement_income_totals] using hmem)
  obtain ⟨orig, horig, heq⟩ := hmem2
  by_cases hq : (orig.id == iid) = true
  · rw [if_pos hq] at heq
    subst heq
    exact ⟨rfl, rfl⟩
  · rw [if_neg hq] at heq
    subst heq
    exact absurd (by simpa using hid) hq

/-- C3: after any committed create, update or soft-delete of a placement
income payment, the parent placement income satisfies total_received =
sum of its active payment amounts and balance = max(0, total_receivable -
total_received). -/
theorem placement_income_totals_invariant
    (db : DB) (op : PlacementPaymentOp) (db2 : DB) (pay : PlacementIncomePayment)
    (hrun : apply_placement_payment_op db op = .ok (db2, pay)) :
    ∀ inc ∈ db2.placement_incomes, inc.id = pay.placement_income_id →
      inc.total_received = sumActivePlacementPayments db2 inc.id ∧
      inc.balance = max 0 (inc.total_receivable - inc.total_received) := by
  intro inc hmem hid
  cases op with
  | create income_id body =>
    simp only [apply_placement_payment_op, create_placement_income_payment] at hrun
    split at hrun
    · cases hrun
    · split at hrun
      · cases hrun
      · rename_i income hfind
        split at hrun
        · cases hrun
        · rename_i hact
          rw [Except.ok.injEq, Prod.mk.injEq] at hrun
          obtain ⟨hdb2, hpay⟩ := hrun
          subst hdb2
          subst hpay
          have hid2 : inc.id = income.id := hid
          have h := recompute_placement_invariant _ income.id inc hmem hid2
          rw [hid2]
          exact h
  | update payment_id body =>
    simp only [apply_placement_payment_op, update_placement_income_payment] at hrun
    split at hrun
    · cases hrun
    · split at hrun
      · cases hrun
      · rename_i payment hfindp
        split at hrun
        · cases hrun
        · split at hrun
          · cases hrun
          · rename_i income hfindi
            split at hrun
            · cases hrun
            · rw [Except.ok.injEq, Prod.mk.injEq] at hrun
              obtain ⟨hdb2, hpay⟩ := hrun
              subst hdb2
              have hpid : inc.id = income.id := by
                have hp := List.find?_some hfindi
                have : income.id = payment.placement_income_id := by simpa using hp
                rw [hid, ← hpay, this]
              have h := recompute_placement_invariant _ income.id inc hmem hpid
              rw [hpid]
              exact h
  | delete payment_id =>
    simp only [apply_placement_payment_op, delete_placement_income_payment] at hrun
    split at hrun
    · cases hrun
    · rename_i payment hfindp
      split at hrun
      · cases hrun
      · split at hrun
        · cases hrun
        · rename_i income hfindi
          split at hrun
          · cases hrun
          · rw [Except.ok.injEq, Prod.mk.injEq] at hrun
            obtain ⟨hdb2, hpay⟩ := hrun
            subst hdb2
            have hpid : inc.id = income.id := by
              have hp := List.find?_some hfindi
              have : income.id = payment.placement_income_id := by simpa using hp
              rw [hid, ← hpay, this]
            have h := recompute_placement_invariant _ income.id inc hmem hpid
            rw [hpid]
            exact h

/-- C3 witness: the payment of 400 recorded against income 1 of dbC3
commits, and the committed income (received 400, balance 600) satisfies
both equations. -/
theorem placement_income_totals_invariant_witness :
    incC3.total_received = sumActivePlacementPayments dbC3sub incC3.id ∧
    incC3.balance = max 0 (incC3.total_receivable - incC3.total_received) :=
  placement_income_totals_invariant dbC3 opC3 dbC3sub payC3 (by rfl) incC3
    (by decide) (by decide)

/-- C2 counterexample: dbC2 holds a COURSE candidate with an active fee
structure (total 10000, one committed active payment of 3000).  The
status-change endpoint commits a fresh initial payment of 2000 together with
a resubmitted fee_structure, after which the fee balance is 8000 while
total_fee minus the active-payment sum is 10000 - 5000 = 5000: the claimed
invariant fails after a committed payment mutation. -/
theorem course_fee_invariant_counterexample :
    isOkResult (update_candidate_status dbC2 3 bodyC2) = true ∧
    (∃ c ∈ (commitState dbC2 (update_candidate_status dbC2 3 bodyC2)).candidates,
      c.id = 3 ∧ c.status = .COURSE ∧ c.is_active = true) ∧
    (∃ fee ∈ (commitState dbC2 (update_candidate_status dbC2 3 bodyC2)).course_fees,
      fee.candidate_id = 3 ∧ fee.is_active = true ∧
      fee.balance ≠ fee.total_fee -
        sumActiveCandidatePayments (commitState dbC2 (update_candidate_status dbC2 3 bodyC2)) 3) := by
  refine ⟨by decide, by decide, ?_⟩
  decide

/-- C2 (amended): a committed status-change to COURSE that supplies a
fee_structure recomputes the fee balance from the request alone:
balance = max(total_fee - initial_payment_amount, 0), with the request
initial-payment amount read as 0 when absent.  Historical payments are not
summed, so the balance need not equal total_fee minus the active-payment
sum (see the counterexample); the payment-CRUD recompute path that would
maintain that sum never commits because it trips over a stale enum member. -/
theorem course_status_change_balance
    (db : DB) (cid : Nat) (body : CandidateStatusChange) (f : CourseStructureFeeCreate)
    (hok : isOkResult (update_candidate_status db cid body) = true)
    (hst : body.status = .COURSE)
    (hf : body.fee_structure = some f) :
    ∃ fee, candidateFeeStructure (commitState db (update_candidate_status db cid body)) cid
        = some fee ∧
      fee.total_fee = f.total_fee ∧
      fee.balance = max (f.total_fee - requestInitialAmount body) 0 := by
  obtain ⟨bst, bfee, bip⟩ := body
  have hst2 : bst = CandidateStatus.COURSE := hst
  have hf2 : bfee = some f := hf
  subst hst2
  subst hf2
  cases bip with
  | none =>
    cases hr : update_candidate_status db cid
        { status := .COURSE, fee_structure := some f, initial_payment := none } with
    | error e => rw [hr] at hok; simp [isOkResult] at hok
    | ok pr =>
      obtain ⟨dbr, cr⟩ := pr
      simp only [update_candidate_status] at hr
      split at hr
      · cases hr
      · rename_i hschema
        split at hr
        · cases hr
        · rename_i candidate hcand
          split at hr
          · cases hr
          · rename_i hact
            have hcid : candidate.id = cid := by
              have := List.find?_some hcand
              simpa using this
            have htot : (0 : Int) ≤ f.total_fee := by
              have hschema2 : candidateFeePayloadSchemaOk (some f) none = true := by
                cases hh : candidateFeePayloadSchemaOk (some f) none with
                | false => exact absurd hh hschema
                | true => rfl
              simp only [candidateFeePayloadSchemaOk, courseFeeSchemaOk,
                Bool.and_eq_true, decide_eq_true_eq] at hschema2
              exact hschema2.1
            split at hr
            · rename_i hnofee
              rw [Except.ok.injEq, Prod.mk.injEq] at hr
              obtain ⟨hdb2, hc2⟩ := hr
              subst hdb2
              have hnofee2 : List.find? (fun x => x.candidate_id == cid) db.course_fees
                  = none := by
                simp only [candidateFeeStructure] at hnofee
                rw [hcid] at hnofee
                exact hnofee
              refine ⟨{ id := db.next_id, candidate_id := candidate.id, total_fee := f.total_fee, balance := max (f.total_fee - requestInitialAmount { status := .COURSE, fee_structure := some f, initial_payment := none }) 0, due_date := f.due_date, is_active := true }, ?_, rfl, rfl⟩
              simp only [commitState, candidateFeeStructure]
              rw [find?_append_of_none _ _ _ hnofee2]
              rw [List.find?_cons_of_pos _ (by simp [hcid])]
            · rename_i fee_row hfee
              rw [Except.ok.injEq, Prod.mk.injEq] at hr
              obtain ⟨hdb2, hc2⟩ := hr
              subst hdb2
              have hfee2 : List.find? (fun x => x.candidate_id == cid) db.course_fees
                  = some fee_row := by
                simp only [candidateFeeStructure] at hfee
                rw [hcid] at hfee
                exact hfee
              have hfind := find?_updateWhere
                (p := fun x => x.candidate_id == cid)
                (q := fun x => x.id == fee_row.id)
                (f := fun x => { x with total_fee := f.total_fee, due_date := f.due_date,
                                        balance := f.total_fee })
                (by intro x; split <;> rfl)
                db.course_fees fee_row hfee2
              rw [if_pos (by simp)] at hfind
              refine ⟨{ fee_row with total_fee := f.total_fee, due_date := f.due_date, balance := f.total_fee }, ?_, rfl, ?_⟩
              · show candidateFeeStructure _ cid = _
                simp only [commitState, candidateFeeStructure]
                exact hfind
              · show f.total_fee = max (f.total_fee - requestInitialAmount _) 0
                simp only [requestInitialAmount]
                omega
  | some ip =>
    cases hr : update_candidate_status db cid
        { status := .COURSE, fee_structure := some f, initial_payment := some ip } with
    | error e => rw [hr] at hok; simp [isOkResult] at hok
    | ok pr =>
      obtain ⟨dbr, cr⟩ := pr
      simp only [update_candidate_status] at hr
      split at hr
      · cases hr
      · rename_i hschema
        split at hr
        · cases hr
        · rename_i candidate hcand
          split at hr
          · cases hr
          · rename_i hact
            have hcid : candidate.id = cid := by
              have := List.find?_some hcand
              simpa using this
            split at hr
            · rename_i hnofee
              rw [Except.ok.injEq, Prod.mk.injEq] at hr
              obtain ⟨hdb2, hc2⟩ := hr
              subst hdb2
              have hnofee2 : List.find? (fun x => x.candidate_id == cid) db.course_fees
                  = none := by
                simp only [candidateFeeStructure] at hnofee
                rw [hcid] at hnofee
                exact hnofee
              refine ⟨{ id := db.next_id, candidate_id := candidate.id, total_fee := f.total_fee, balance := max (f.total_fee - requestInitialAmount { status := .COURSE, fee_structure := some f, initial_payment := some ip }) 0, due_date := f.due_date, is_active := true }, ?_, rfl, rfl⟩
              simp only [commitState, candidateFeeStructure]
              rw [find?_append_of_none _ _ _ hnofee2]
              rw [List.find?_cons_of_pos _ (by simp [hcid])]
            · rename_i fee_row hfee
              rw [Except.ok.injEq, Prod.mk.injEq] at hr
              obtain ⟨hdb2, hc2⟩ := hr
              subst hdb2
              have hfee2 : List.find? (fun x => x.candidate_id == cid) db.course_fees
                  = some fee_row := by
                simp only [candidateFeeStructure] at hfee
                rw [hcid] at hfee
                exact hfee
              have hfind := find?_updateWhere
                (p := fun x => x.candidate_id == cid)
                (q := fun x => x.id == fee_row.id)
                (f := fun x => { x with total_fee := f.total_fee, due_date := f.due_date,
                                        balance := max (f.total_fee - ip.amount) 0 })
                (by intro x; split <;> rfl)
                db.course_fees fee_row hfee2
              rw [if_pos (by simp)] at hfind
              refine ⟨{ fee_row with total_fee := f.total_fee, due_date := f.due_date, balance := max (f.total_fee - ip.amount) 0 }, ?_, rfl, ?_⟩
              · show candidateFeeStructure _ cid = _
                simp only [commitState, candidateFeeStructure]
                exact hfind
              · show max (f.total_fee - ip.amount) 0 = max (f.total_fee - requestInitialAmount _) 0
                simp only [requestInitialAmount]

/-- C2 (amended) witness: the dbC2 run commits with fee balance
max(10000 - 2000, 0) = 8000 computed from the request alone. -/
theorem course_status_change_balance_witness :
    ∃ fee, candidateFeeStructure (commitState dbC2 (update_candidate_status dbC2 3 bodyC2)) 3
        = some fee ∧
      fee.total_fee = (10000 : Int) ∧
      fee.balance = max ((10000 : Int) - requestInitialAmount bodyC2) 0 :=
  course_status_change_balance dbC2 3 bodyC2 { total_fee := 10000, due_date := none }
    (by decide) rfl rfl

/-- C9 counterexample: interview 5 of dbC9 is active with status JOINED,
yet the status endpoint accepts a request for ON_HOLD, commits, and stores
ON_HOLD: a status-transition request away from JOINED succeeds. -/
theorem joined_not_terminal_counterexample :
    (∃ i ∈ dbC9.interviews, i.id = 5 ∧ i.status = .JOINED ∧ i.is_active = true) ∧
    isOkResult (update_interview_status dbC9 5 bodyC9) = true ∧
    resultInterviewStatus (update_interview_status dbC9 5 bodyC9) = some .ON_HOLD ∧
    ((commitState dbC9 (update_interview_status dbC9 5 bodyC9)).interviews.find?
      (fun x => x.id == 5)).map Interview.status = some .ON_HOLD := by
  refine ⟨by decide, by decide, by decide, by decide⟩

/-- C9 (amended): the status endpoint never guards on the current status:
whenever the request commits, the stored status and the returned payload
both carry the requested status, whatever the interview held before —
including JOINED, so JOINED is terminal only by convention, not enforced. -/
theorem interview_status_overwrite (db : DB) (iid : Nat) (body : InterviewStatusUpdate)
    (hok : isOkResult (update_interview_status db iid body) = true) :
    resultInterviewStatus (update_interview_status db iid body) = some body.status ∧
    ∃ i2, ((commitState db (update_interview_status db iid body)).interviews.find?
        (fun x => x.id == iid)) = some i2 ∧ i2.status = body.status := by
  cases hr : update_interview_status db iid body with
  | error e => rw [hr] at hok; simp [isOkResult] at hok
  | ok pr =>
    obtain ⟨dbr, res⟩ := pr
    simp only [update_interview_status] at hr
    split at hr
    · cases hr
    · rename_i interview hfi
      split at hr
      · cases hr
      · rename_i hia
        split at hr
        · cases hr
        · rename_i job hfj
          split at hr
          · cases hr
          · rename_i hja
            split at hr
            · cases hr
            · rename_i cand hfc
              split at hr
              · cases hr
              · rename_i hca
                split at hr
                · cases hr
                · rename_i db4 pid heq
                  have hiv : db4.interviews = db.interviews := by
                    repeat' split at heq
                    all_goals cases heq
                    all_goals rfl
                  rw [Except.ok.injEq, Prod.mk.injEq] at hr
                  obtain ⟨h5, h6⟩ := hr
                  subst h5
                  subst h6
                  have hiid : interview.id = iid := by
                    simpa using List.find?_some hfi
                  constructor
                  · rfl
                  · have hcompat : ∀ x : Interview,
                        ((fun y => y.id == iid)
                          (if (x.id == interview.id) then
                            { interview with status := body.status } else x)) =
                        ((fun y => y.id == iid) x) := by
                      intro x
                      by_cases hq : (x.id == interview.id) = true
                      · rw [if_pos hq]
                        have hx : x.id = interview.id := by simpa using hq
                        show (interview.id == iid) = (x.id == iid)
                        rw [hx]
                      · rw [if_neg hq]
                    have hfi4 : db4.interviews.find? (fun x => x.id == iid)
                        = some interview := by rw [hiv]; exact hfi
                    have hfind := find?_updateWhere
                      (p := fun x => x.id == iid)
                      (q := fun x => x.id == interview.id)
                      (f := fun _ => { interview with status := body.status })
                      hcompat db4.interviews interview hfi4
                    rw [if_pos (by simp)] at hfind
                    exact ⟨{ interview with status := body.status }, hfind, rfl⟩

/-- C9 (amended) witness: the dbC9 request away from JOINED commits and the
stored status is the requested ON_HOLD. -/
theorem interview_status_overwrite_witness :
    resultInterviewStatus (update_interview_status dbC9 5 bodyC9) = some bodyC9.status ∧
    ∃ i2, ((commitState dbC9 (update_interview_status dbC9 5 bodyC9)).interviews.find?
        (fun x => x.id == 5)) = some i2 ∧ i2.status = bodyC9.status :=
  interview_status_overwrite dbC9 5 bodyC9 (by decide)

/-- C6 counterexample: after a first successful JOINED transition on
interview 11 (which leaves an active PlacementIncome for it and marks the
candidate EMPLOYED), re-invoking the JOINED transition does not return the
existing income id: it fails with the already-employed conflict, so the
response carries no placement income id at all. -/
theorem joined_idempotence_counterexample :
    isOkResult (update_interview_status dbC6x 11 bodyC6) = true ∧
    (dbC6x2.placement_incomes.any (fun x => x.is_active && x.interview_id == 11)) = true ∧
    update_interview_status dbC6x2 11 bodyC6 =
      .error (.conflict "Candidate is already EMPLOYED and cannot be joined to another job") ∧
    resultPlacementIncomeId (update_interview_status dbC6x2 11 bodyC6) = none := by
  refine ⟨by decide, by decide, by decide, by decide⟩

/-- C6 (amended): whenever a JOINED transition commits while an active
PlacementIncome already exists for the interview, the endpoint reuses it:
the placement_incomes table is left exactly as it was (no second row) and
the response carries the existing income id.  A literal re-invocation after
a successful JOINED transition instead fails with an already-employed
conflict and creates nothing (see the counterexample). -/
theorem joined_reuses_existing_income (db : DB) (iid : Nat)
    (body : InterviewStatusUpdate) (inc : PlacementIncome)
    (hok : isOkResult (update_interview_status db iid body) = true)
    (hst : body.status = .JOINED)
    (hinc : db.placement_incomes.find?
      (fun x => x.is_active && x.interview_id == iid) = some inc) :
    resultPlacementIncomeId (update_interview_status db iid body) = some inc.id ∧
    (commitState db (update_interview_status db iid body)).placement_incomes
      = db.placement_incomes := by
  cases hr : update_interview_status db iid body with
  | error e => rw [hr] at hok; simp [isOkResult] at hok
  | ok pr =>
    obtain ⟨dbr, res⟩ := pr
    simp only [update_interview_status] at hr
    split at hr
    · cases hr
    · rename_i interview hfi
      split at hr
      · cases hr
      · rename_i hia
        split at hr
        · cases hr
        · rename_i job hfj
          split at hr
          · cases hr
          · rename_i hja
            split at hr
            · cases hr
            · rename_i cand hfc
              split at hr
              · cases hr
              · rename_i hca
                split at hr
                · cases hr
                · rename_i db4 pid heq
                  have hiid : interview.id = iid := by
                    simpa using List.find?_some hfi
                  rw [hiid] at heq
                  repeat' split at heq
                  all_goals try cases heq
                  all_goals try cases hr
                  all_goals simp_all [resultPlacementIncomeId, commitState]

/-- C6 (amended) witness: the JOINED transition on dbC6w (whose interview
11 already owns the active income 22) commits, returns income id 22, and
leaves the placement_incomes table unchanged. -/
theorem joined_reuses_existing_income_witness :
    resultPlacementIncomeId (update_interview_status dbC6w 11 bodyC6) = some 22 ∧
    (commitState dbC6w (update_interview_status dbC6w 11 bodyC6)).placement_incomes
      = dbC6w.placement_incomes :=
  joined_reuses_existing_income dbC6w 11 bodyC6
    { id := 22, interview_id := 11, candidate_id := 5, job_id := 4, total_receivable := 800,
      total_received := 0, balance := 800, due_date := 70, remarks := none, is_active := true }
    (by decide) rfl (by decide)

/-- C1 counterexample: interview 10 of dbC1 already owns an active
PlacementIncome (receivable 500, received 100, balance 400) pre-created
through POST /placement-incomes.  The JOINED transition with supplied
receivable 20000 passes every validation and commits, yet the committed
state has no active PlacementIncome for the interview with
total_received = 0 and balance = 20000: the pre-existing income is reused
untouched, refuting the claimed post-state. -/
theorem joined_post_state_counterexample :
    isOkResult (update_interview_status dbC1 10 bodyC1) = true ∧
    (∀ inc ∈ (commitState dbC1 (update_interview_status dbC1 10 bodyC1)).placement_incomes,
      inc.is_active = true → inc.interview_id = 10 →
        ¬(inc.total_received = 0 ∧ inc.balance = 20000)) := by
  refine ⟨by decide, by decide⟩

/-- C1 (amended): when a JOINED transition commits and no active
PlacementIncome existed for the interview beforehand, the committed state
contains the active join row with the supplied doj and salary, a fresh
active PlacementIncome with total_received 0 and balance equal to the
supplied receivable (its id returned in the payload), the job with
vacancies decremented by one (floored at 0) and status FULFILLED exactly
when the decrement reaches 0, the candidate EMPLOYED, and the interview
JOINED.  When an active income pre-exists it is reused unmodified, so the
fresh-income part of the original claim fails (see the counterexample). -/
theorem joined_commit_postconditions
    (db : DB) (iid : Nat) (body : InterviewStatusUpdate)
    (i : Interview) (j : Job) (c : Candidate) (d : Nat) (s recv : Int)
    (hok : isOkResult (update_interview_status db iid body) = true)
    (hst : body.status = .JOINED)
    (hfi : db.interviews.find? (fun x => x.id == iid) = some i)
    (hfj : db.jobs.find? (fun x => x.id == i.job_id) = some j)
    (hfc : db.candidates.find? (fun x => x.id == i.candidate_id) = some c)
    (hdoj : body.doj = some d) (hsal : body.salary = some s)
    (hrecv : body.placement_total_receivable = some recv)
    (hnoinc : db.placement_incomes.find?
      (fun x => x.is_active && x.interview_id == iid) = none) :
    (∃ jr ∈ (commitState db (update_interview_status db iid body)).joined_candidates,
      jr.is_active = true ∧ jr.job_id = i.job_id ∧ jr.candidate_id = i.candidate_id ∧
      jr.Date_of_joining = d ∧ jr.salary = s) ∧
    (∃ inc ∈ (commitState db (update_interview_status db iid body)).placement_incomes,
      inc.is_active = true ∧ inc.interview_id = iid ∧ inc.total_received = 0 ∧
      inc.total_receivable = recv ∧ inc.balance = recv ∧
      resultPlacementIncomeId (update_interview_status db iid body) = some inc.id) ∧
    (∃ j2, (commitState db (update_interview_status db iid body)).jobs.find?
        (fun x => x.id == i.job_id) = some j2 ∧
      j2.num_vacancies = max 0 (j.num_vacancies - 1) ∧
      j2.status = (if max 0 (j.num_vacancies - 1) = 0 then JobStatus.FULFILLED else j.status)) ∧
    (∃ c2, (commitState db (update_interview_status db iid body)).candidates.find?
        (fun x => x.id == i.candidate_id) = some c2 ∧
      c2.employment_status = .EMPLOYED) ∧
    (∃ i2, (commitState db (update_interview_status db iid body)).interviews.find?
        (fun x => x.id == iid) = some i2 ∧ i2.status = .JOINED) := by
  have hiid : i.id = iid := by simpa using List.find?_some hfi
  have hji : j.id = i.job_id := by simpa using List.find?_some hfj
  cases hr : update_interview_status db iid body with
  | error e => rw [hr] at hok; simp [isOkResult] at hok
  | ok pr =>
    obtain ⟨dbr, res⟩ := pr
    simp only [update_interview_status, hfi, hfj, hfc, hst, hdoj, hsal, hrecv,
      hiid, hnoinc] at hr
    split at hr
    · cases hr
    · split at hr
      · cases hr
      · split at hr
        · cases hr
        · split at hr
          · cases hr
          · rename_i db4 pid heq
            repeat' split at heq
            all_goals try cases heq
            all_goals try cases hr
            all_goals try (exact absurd trivial (by assumption))
            · -- the decrement reaches zero: status set to FULFILLED
              rename_i hvac
              refine ⟨?_, ?_, ?_, ?_, ?_⟩
              · refine ⟨{ id := db.next_id, job_id := j.id, candidate_id := i.candidate_id, Date_of_joining := d, salary := s, remarks := none, is_active := true }, by simp [commitState], rfl, hji, rfl, rfl, rfl⟩
              · refine ⟨{ id := db.next_id + 1, interview_id := iid, candidate_id := i.candidate_id, job_id := i.job_id, total_receivable := recv, total_received := 0, balance := recv, due_date := body.placement_due_date.getD d, remarks := body.placement_remarks, is_active := true }, by simp [commitState], rfl, rfl, rfl, rfl, rfl, rfl⟩
              · have hfind := find?_updateWhere
                  (p := fun x => x.id == i.job_id)
                  (q := fun x => x.id == j.id)
                  (f := fun x => { x with num_vacancies := max 0 (j.num_vacancies - 1),
                                          status := JobStatus.FULFILLED })
                  (by intro x; split <;> rfl)
                  db.jobs j hfj
                rw [if_pos (by simp)] at hfind
                refine ⟨_, hfind, rfl, ?_⟩
                rw [if_pos hvac]
              · have hfind := find?_updateWhere
                  (p := fun x => x.id == i.candidate_id)
                  (q := fun x => x.id == i.candidate_id)
                  (f := fun x => { x with employment_status := CandidateEmploymentStatus.EMPLOYED })
                  (by intro x; split <;> rfl)
                  db.candidates c hfc
                rw [if_pos (List.find?_some hfc)] at hfind
                exact ⟨_, hfind, rfl⟩
              · have hcompat : ∀ x : Interview,
                    ((fun y => y.id == iid)
                      (if (x.id == iid) then { i with id := iid, status := InterviewStatus.JOINED } else x)) =
                    ((fun y => y.id == iid) x) := by
                  intro x
                  by_cases hq : (x.id == iid) = true
                  · rw [if_pos hq]
                    have hx : x.id = iid := by simpa using hq
                    show (iid == iid) = (x.id == iid)
                    rw [hx]
                  · rw [if_neg hq]
                have hfind := find?_updateWhere
                  (p := fun x => x.id == iid)
                  (q := fun x => x.id == iid)
                  (f := fun _ => { i with id := iid, status := InterviewStatus.JOINED })
                  hcompat db.interviews i hfi
                rw [if_pos (List.find?_some hfi)] at hfind
                exact ⟨_, hfind, rfl⟩
            · -- vacancies remain positive: job status untouched
              rename_i hvac
              refine ⟨?_, ?_, ?_, ?_, ?_⟩
              · refine ⟨{ id := db.next_id, job_id := j.id, candidate_id := i.candidate_id, Date_of_joining := d, salary := s, remarks := none, is_active := true }, by simp [commitState], rfl, hji, rfl, rfl, rfl⟩
              · refine ⟨{ id := db.next_id + 1, interview_id := iid, candidate_id := i.candidate_id, job_id := i.job_id, total_receivable := recv, total_received := 0, balance := recv, due_date := body.placement_due_date.getD d, remarks := body.placement_remarks, is_active := true }, by simp [commitState], rfl, rfl, rfl, rfl, rfl, rfl⟩
              · have hfind := find?_updateWhere
                  (p := fun x => x.id == i.job_id)
                  (q := fun x => x.id == j.id)
                  (f := fun x => { x with num_vacancies := max 0 (j.num_vacancies - 1),
                                          status := x.status })
                  (by intro x; split <;> rfl)
                  db.jobs j hfj
                rw [if_pos (by simp)] at hfind
                refine ⟨_, hfind, rfl, ?_⟩
                rw [if_neg hvac]
              · have hfind := find?_updateWhere
                  (p := fun x => x.id == i.candidate_id)
                  (q := fun x => x.id == i.candidate_id)
                  (f := fun x => { x with employment_status := CandidateEmploymentStatus.EMPLOYED })
                  (by intro x; split <;> rfl)
                  db.candidates c hfc
                rw [if_pos (List.find?_some hfc)] at hfind
                exact ⟨_, hfind, rfl⟩
              · have hcompat : ∀ x : Interview,
                    ((fun y => y.id == iid)
                      (if (x.id == iid) then { i with id := iid, status := InterviewStatus.JOINED } else x)) =
                    ((fun y => y.id == iid) x) := by
                  intro x
                  by_cases hq : (x.id == iid) = true
                  · rw [if_pos hq]
                    have hx : x.id = iid := by simpa using hq
                    show (iid == iid) = (x.id == iid)
                    rw [hx]
                  · rw [if_neg hq]
                have hfind := find?_updateWhere
                  (p := fun x => x.id == iid)
                  (q := fun x => x.id == iid)
                  (f := fun _ => { i with id := iid, status := InterviewStatus.JOINED })
                  hcompat db.interviews i hfi
                rw [if_pos (List.find?_some hfi)] at hfind
                exact ⟨_, hfind, rfl⟩

/-- C1 (amended) witness: on dbC1w (no pre-existing income) the JOINED
transition with doj 60, salary 50000, receivable 20000 commits with all the
claimed post-state facts. -/
theorem joined_commit_postconditions_witness :
    (∃ jr ∈ (commitState dbC1w (update_interview_status dbC1w 10 bodyC1)).joined_candidates,
      jr.is_active = true ∧ jr.job_id = 2 ∧ jr.candidate_id = 3 ∧
      jr.Date_of_joining = 60 ∧ jr.salary = 50000) ∧
    (∃ inc ∈ (commitState dbC1w (update_interview_status dbC1w 10 bodyC1)).placement_incomes,
      inc.is_active = true ∧ inc.interview_id = 10 ∧ inc.total_received = 0 ∧
      inc.total_receivable = 20000 ∧ inc.balance = 20000 ∧
      resultPlacementIncomeId (update_interview_status dbC1w 10 bodyC1) = some inc.id) ∧
    (∃ j2, (commitState dbC1w (update_interview_status dbC1w 10 bodyC1)).jobs.find?
        (fun x => x.id == 2) = some j2 ∧
      j2.num_vacancies = max 0 ((1 : Int) - 1) ∧
      j2.status = (if max 0 ((1 : Int) - 1) = 0 then JobStatus.FULFILLED else JobStatus.OPEN)) ∧
    (∃ c2, (commitState dbC1w (update_interview_status dbC1w 10 bodyC1)).candidates.find?
        (fun x => x.id == 3) = some c2 ∧
      c2.employment_status = .EMPLOYED) ∧
    (∃ i2, (commitState dbC1w (update_interview_status dbC1w 10 bodyC1)).interviews.find?
        (fun x => x.id == 10) = some i2 ∧ i2.status = .JOINED) :=
  joined_commit_postconditions dbC1w 10 bodyC1
    { id := 10, company_id := 1, job_id := 2, candidate_id := 3,
      status := .SCHEDULED, is_active := true }
    { id := 2, company_id := 1, title := "Dev", num_vacancies := 1,
      status := .OPEN, is_active := true }
    { id := 3, full_name := some "Asha", status := .FREE,
      employment_status := .UNEMPLOYED, is_active := true }
    60 50000 20000
    (by decide) rfl (by decide) (by decide) (by decide) rfl rfl rfl (by decide)

/-- C5 counterexample: with doj and salary absent and a non-positive
receivable supplied, the claimed order demands the doj/salary failure
first, but pydantic validation of the receivable field runs before the
handler, so the response is the 422 naming placement_total_receivable, not
the doj/salary error. -/
theorem joined_validation_order_counterexample :
    patch_interview_status dbC5 1 bodyC5x =
      .error (.unprocessable "placement_total_receivable") ∧
    patch_interview_status dbC5 1 bodyC5x ≠
      .error (.badRequest "doj and salary are required when status is JOINED") := by
  refine ⟨by decide, by decide⟩

/-- C5 (amended): every listed defect of a JOINED request fails with a
client error and no state change, but the positivity constraints are
enforced by request-schema validation before the handler runs (a present
non-positive salary or receivable yields a 422 naming the offending
fields, regardless of the handler checks); inside the handler, the
doj/salary presence check fires first — regardless of the receivable and
of the employment, vacancy and duplicate-join state — and the receivable
presence check fires next, before those stateful checks. -/
theorem joined_validation_order
    (db : DB) (iid : Nat) (body : InterviewStatusUpdate)
    (i : Interview) (j : Job) (c : Candidate)
    (hst : body.status = .JOINED)
    (hfi : db.interviews.find? (fun x => x.id == iid) = some i) (hia : i.is_active = true)
    (hfj : db.jobs.find? (fun x => x.id == i.job_id) = some j) (hja : j.is_active = true)
    (hfc : db.candidates.find? (fun x => x.id == i.candidate_id) = some c)
    (hca : c.is_active = true) :
    (interviewSchemaErrorFields body ≠ [] →
      patch_interview_status db iid body =
        .error (.unprocessable (String.intercalate ", " (interviewSchemaErrorFields body))) ∧
      commitState db (patch_interview_status db iid body) = db) ∧
    ((body.doj = none ∨ body.salary = none) →
      update_interview_status db iid body =
        .error (.badRequest "doj and salary are required when status is JOINED") ∧
      commitState db (update_interview_status db iid body) = db) ∧
    (∀ d s, body.doj = some d → body.salary = some s →
      body.placement_total_receivable = none →
      update_interview_status db iid body =
        .error (.badRequest "placement_total_receivable is required when status is JOINED") ∧
      commitState db (update_interview_status db iid body) = db) := by
  refine ⟨?_, ?_, ?_⟩
  · intro hne
    cases hfld : interviewSchemaErrorFields body with
    | nil => exact absurd hfld hne
    | cons a l =>
      have hres : patch_interview_status db iid body =
          .error (.unprocessable (String.intercalate ", " (a :: l))) := by
        simp only [patch_interview_status, hfld]
      exact ⟨hres, by simp [hres, commitState]⟩
  · intro hds
    have hres : update_interview_status db iid body =
        .error (.badRequest "doj and salary are required when status is JOINED") := by
      rcases hds with h | h
      · simp [update_interview_status, hfi, hfj, hfc, hia, hja, hca, hst, h]
      · cases hdd : body.doj with
        | none => simp [update_interview_status, hfi, hfj, hfc, hia, hja, hca, hst, hdd]
        | some d => simp [update_interview_status, hfi, hfj, hfc, hia, hja, hca, hst, hdd, h]
    exact ⟨hres, by simp [hres, commitState]⟩
  · intro d s hd hs hr0
    have hres : update_interview_status db iid body =
        .error (.badRequest "placement_total_receivable is required when status is JOINED") := by
      simp [update_interview_status, hfi, hfj, hfc, hia, hja, hca, hst, hd, hs, hr0]
    exact ⟨hres, by simp [hres, commitState]⟩

/-- C5 (amended) witness: against dbC5 (all entities present and active)
the three failure modes produce exactly the three errors, with no state
change: a non-positive salary gives the 422 naming salary; absent doj and
salary give the doj/salary 400; present doj and salary with absent
receivable give the receivable 400. -/
theorem joined_validation_order_witness :
    (patch_interview_status dbC5 1 bodyC5a =
        .error (.unprocessable (String.intercalate ", " (interviewSchemaErrorFields bodyC5a))) ∧
      commitState dbC5 (patch_interview_status dbC5 1 bodyC5a) = dbC5) ∧
    (update_interview_status dbC5 1 bodyC5b =
        .error (.badRequest "doj and salary are required when status is JOINED") ∧
      commitState dbC5 (update_interview_status dbC5 1 bodyC5b) = dbC5) ∧
    (update_interview_status dbC5 1 bodyC5c =
        .error (.badRequest "placement_total_receivable is required when status is JOINED") ∧
      commitState dbC5 (update_interview_status dbC5 1 bodyC5c) = dbC5) := by
  refine ⟨?_, ?_, ?_⟩
  · exact (joined_validation_order dbC5 1 bodyC5a
      { id := 1, company_id := 1, job_id := 2, candidate_id := 3,
        status := .SCHEDULED, is_active := true }
      { id := 2, company_id := 1, title := "Ops", num_vacancies := 1,
        status := .OPEN, is_active := true }
      { id := 3, full_name := some "Nia", status := .FREE,
        employment_status := .UNEMPLOYED, is_active := true }
      rfl (by decide) rfl (by decide) rfl (by decide) rfl).1 (by decide)
  · exact (joined_validation_order dbC5 1 bodyC5b
      { id := 1, company_id := 1, job_id := 2, candidate_id := 3,
        status := .SCHEDULED, is_active := true }
      { id := 2, company_id := 1, title := "Ops", num_vacancies := 1,
        status := .OPEN, is_active := true }
      { id := 3, full_name := some "Nia", status := .FREE,
        employment_status := .UNEMPLOYED, is_active := true }
      rfl (by decide) rfl (by decide) rfl (by decide) rfl).2.1 (Or.inl rfl)
  · exact (joined_validation_order dbC5 1 bodyC5c
      { id := 1, company_id := 1, job_id := 2, candidate_id := 3,
        status := .SCHEDULED, is_active := true }
      { id := 2, company_id := 1, title := "Ops", num_vacancies := 1,
        status := .OPEN, is_active := true }
      { id := 3, full_name := some "Nia", status := .FREE,
        employment_status := .UNEMPLOYED, is_active := true }
      rfl (by decide) rfl (by decide) rfl (by decide) rfl).2.2 5 100 rfl rfl rfl

/-- C4: creating a candidate payment can never reach the documented 400 or
success outcomes.  dbC4 holds candidate 7 (COURSE with an active fee
structure — the claim says this must succeed) and candidate 8 (REGISTERED):
for both, once the 404 check passes, the endpoint evaluates
CandidateStatus.CAPS, a member missing from the enum, raising AttributeError
(HTTP 500) and rolling back before any write. -/
theorem create_candidate_payment_crashes :
    create_candidate_payment dbC4 7 bodyC4 =
      .error (.internalError "AttributeError: CAPS is not a member of CandidateStatus") ∧
    create_candidate_payment dbC4 8 bodyC4 =
      .error (.internalError "AttributeError: CAPS is not a member of CandidateStatus") ∧
    commitState dbC4 (create_candidate_payment dbC4 7 bodyC4) = dbC4 ∧
    (∀ (db : DB) (cid : Nat) (body : CandidatePaymentCreate),
      isOkResult (create_candidate_payment db cid body) = false) := by
  refine ⟨by decide, by decide, by decide, ?_⟩
  intro db cid body
  simp only [create_candidate_payment]
  split
  · rfl
  · split
    · rfl
    · split
      · rfl
      · rfl

/-- C8: a full candidate update with effective status COURSE, a supplied
fee_structure and NO initial_payment crashes when an active fee structure
already exists: the code reads body.initial_payment.amount without a None
check, so the request fails with AttributeError (HTTP 500) instead of
completing, and nothing is committed.  dbC8 holds exactly the state the
claim says must succeed. -/
theorem update_candidate_existing_fee_crashes :
    update_candidate dbC8 3 bodyC8 =
      .error (.internalError "AttributeError: NoneType has no attribute amount") ∧
    commitState dbC8 (update_candidate dbC8 3 bodyC8) = dbC8 := by
  refine ⟨by decide, by decide⟩

/-! Ledger helper lemmas shared by the ledger claims. -/

/-- The ledger sort order is transitive. -/
theorem ledgerLE_trans : ∀ a b c : LedgerRow, ledgerLE a b = true → ledgerLE b c = true →
    ledgerLE a c = true := by
  intro a b c hab hbc
  simp only [ledgerLE, Bool.or_eq_true, Bool.and_eq_true, decide_eq_true_eq,
    beq_iff_eq] at hab hbc ⊢
  omega

/-- The ledger sort order is total. -/
theorem ledgerLE_total : ∀ a b : LedgerRow, (ledgerLE a b || ledgerLE b a) = true := by
  intro a b
  simp only [ledgerLE, Bool.or_eq_true, Bool.and_eq_true, decide_eq_true_eq, beq_iff_eq]
  omega

/-- Every returned ledger page row comes from the filtered merged set. -/
theorem mem_ledger_items (db : DB) (q : PaymentLedgerQuery) :
    ∀ r ∈ (list_payment_ledger db q).items,
      r ∈ (ledger_merged_rows db).filter (ledger_row_matches q) := by
  intro r hr
  simp only [list_payment_ledger] at hr
  have hsub : ((((ledger_merged_rows db).filter (ledger_row_matches q)).mergeSort
      ledgerLE).drop ((q.page - 1) * q.limit)).take q.limit |>.Sublist
      (((ledger_merged_rows db).filter (ledger_row_matches q)).mergeSort ledgerLE) :=
    (List.take_sublist _ _).trans (List.drop_sublist _ _)
  have hmem : r ∈ ((ledger_merged_rows db).filter (ledger_row_matches q)).mergeSort
      ledgerLE := hsub.subset hr
  exact (List.mergeSort_perm _ ledgerLE).mem_iff.mp hmem

/-- Shape of the company stream rows: tagged COMPANY_PAYMENT, literally
active, ids drawn from the company_payments table. -/
theorem ledger_company_row_shape (db : DB) :
    ∀ r ∈ ledger_company_rows db, r.source = "COMPANY_PAYMENT" ∧ r.is_active = true ∧
      ∃ p ∈ db.company_payments, r.id = p.id := by
  intro r hr
  simp only [ledger_company_rows, List.mem_filterMap] at hr
  obtain ⟨p, hp, heq⟩ := hr
  cases hc : db.companies.find? (fun c => c.id == p.company_id) with
  | none => rw [hc] at heq; cases heq
  | some comp =>
    rw [hc] at heq
    injection heq with heq2
    subst heq2
    exact ⟨rfl, rfl, p, hp, rfl⟩

/-- The candidate stream only produces COURSE_FEE or REGISTRATION_FEE. -/
theorem ledger_candidate_row_source (db : DB) :
    ∀ r ∈ ledger_candidate_rows db,
      r.source = "COURSE_FEE" ∨ r.source = "REGISTRATION_FEE" := by
  intro r hr
  simp only [ledger_candidate_rows, List.mem_filterMap] at hr
  obtain ⟨p, hp, heq⟩ := hr
  cases hc : db.candidates.find? (fun c => c.id == p.candidate_id) with
  | none => rw [hc] at heq; cases heq
  | some cand =>
    rw [hc] at heq
    injection heq with heq2
    subst heq2
    by_cases hs : cand.status = CandidateStatus.COURSE
    · left; show (if cand.status = CandidateStatus.COURSE then _ else _) = _
      rw [if_pos hs]
    · right; show (if cand.status = CandidateStatus.COURSE then _ else _) = _
      rw [if_neg hs]

/-- The placement stream only produces PLACEMENT_INCOME. -/
theorem ledger_placement_row_source (db : DB) :
    ∀ r ∈ ledger_placement_rows db, r.source = "PLACEMENT_INCOME" := by
  intro r hr
  simp only [ledger_placement_rows, List.mem_filterMap] at hr
  obtain ⟨p, hp, heq⟩ := hr
  cases h1 : db.placement_incomes.find? (fun i => i.id == p.placement_income_id) with
  | none => simp only [h1] at heq; cases heq
  | some income =>
    simp only [h1] at heq
    cases h2 : db.jobs.find? (fun j => j.id == income.job_id) with
    | none => simp only [h2] at heq; cases heq
    | some job =>
      simp only [h2] at heq
      cases h3 : db.companies.find? (fun c => c.id == job.company_id) with
      | none => simp only [h3] at heq; cases heq
      | some comp =>
        simp only [h3] at heq
        cases h4 : db.candidates.find? (fun c => c.id == income.candidate_id) with
        | none => simp only [h4] at heq; cases heq
        | some cand =>
          simp only [h4] at heq
          injection heq with heq2
          subst heq2
          rfl

/-- C7: the unified ledger merges the three payment streams with each
candidate-payment row labeled COURSE_FEE exactly when the owning candidate
currently has status COURSE (REGISTRATION_FEE otherwise); the page is the
offset/limit slice of the filtered merged set sorted by payment_date
descending with ties broken by created_at descending; the reported total
counts the same filtered merged set; and inactive rows are excluded
whenever include_inactive is unset. -/
theorem ledger_view_correct (db : DB) (q : PaymentLedgerQuery) :
    (list_payment_ledger db q).total =
      ((ledger_merged_rows db).filter (ledger_row_matches q)).length ∧
    (list_payment_ledger db q).items =
      ((((ledger_merged_rows db).filter (ledger_row_matches q)).mergeSort ledgerLE).drop
        ((q.page - 1) * q.limit)).take q.limit ∧
    (((ledger_merged_rows db).filter (ledger_row_matches q)).mergeSort ledgerLE).Perm
      ((ledger_merged_rows db).filter (ledger_row_matches q)) ∧
    List.Pairwise (fun a b => ledgerLE a b = true)
      (((ledger_merged_rows db).filter (ledger_row_matches q)).mergeSort ledgerLE) ∧
    (∀ r ∈ (list_payment_ledger db q).items,
      r ∈ (ledger_merged_rows db).filter (ledger_row_matches q)) ∧
    (q.include_inactive = false → ∀ r ∈ (list_payment_ledger db q).items,
      r.is_active = true) ∧
    (∀ r ∈ ledger_candidate_rows db, ∃ p ∈ db.candidate_payments, ∃ cand,
      db.candidates.find? (fun x => x.id == p.candidate_id) = some cand ∧
      r.id = p.id ∧ r.is_active = p.is_active ∧
      r.source = (if cand.status = .COURSE then "COURSE_FEE" else "REGISTRATION_FEE") ∧
      r.candidate_payment_type = some r.source) := by
  refine ⟨rfl, rfl, List.mergeSort_perm _ ledgerLE,
    List.sorted_mergeSort ledgerLE_trans ledgerLE_total _, mem_ledger_items db q, ?_, ?_⟩
  · intro hinc r hr
    have hmem := mem_ledger_items db q r hr
    have hmatch := (List.mem_filter.mp hmem).2
    simp only [ledger_row_matches, Bool.and_eq_true] at hmatch
    have hact := hmatch.2
    rw [hinc] at hact
    simpa using hact
  · intro r hr
    simp only [ledger_candidate_rows, List.mem_filterMap] at hr
    obtain ⟨p, hp, heq⟩ := hr
    cases hc : db.candidates.find? (fun c => c.id == p.candidate_id) with
    | none => simp only [hc] at heq; cases heq
    | some cand =>
      simp only [hc] at heq
      injection heq with heq2
      subst heq2
      exact ⟨p, hp, cand, hc, rfl, rfl, rfl, rfl⟩

/-- C7 witness: the ledger over dbC7 with the default first-page query —
one payment in each stream — satisfies every clause of the theorem. -/
theorem ledger_view_correct_witness :
    (list_payment_ledger dbC7 qC7).total =
      ((ledger_merged_rows dbC7).filter (ledger_row_matches qC7)).length ∧
    (list_payment_ledger dbC7 qC7).items =
      ((((ledger_merged_rows dbC7).filter (ledger_row_matches qC7)).mergeSort ledgerLE).drop
        ((qC7.page - 1) * qC7.limit)).take qC7.limit ∧
    (((ledger_merged_rows dbC7).filter (ledger_row_matches qC7)).mergeSort ledgerLE).Perm
      ((ledger_merged_rows dbC7).filter (ledger_row_matches qC7)) ∧
    List.Pairwise (fun a b => ledgerLE a b = true)
      (((ledger_merged_rows dbC7).filter (ledger_row_matches qC7)).mergeSort ledgerLE) ∧
    (∀ r ∈ (list_payment_ledger dbC7 qC7).items,
      r ∈ (ledger_merged_rows dbC7).filter (ledger_row_matches qC7)) ∧
    (qC7.include_inactive = false → ∀ r ∈ (list_payment_ledger dbC7 qC7).items,
      r.is_active = true) ∧
    (∀ r ∈ ledger_candidate_rows dbC7, ∃ p ∈ dbC7.candidate_payments, ∃ cand,
      dbC7.candidates.find? (fun x => x.id == p.candidate_id) = some cand ∧
      r.id = p.id ∧ r.is_active = p.is_active ∧
      r.source = (if cand.status = .COURSE then "COURSE_FEE" else "REGISTRATION_FEE") ∧
      r.candidate_payment_type = some r.source) :=
  ledger_view_correct dbC7 qC7

/-- C10 counterexample: dbC10 holds an active candidate 4 with active
payment 8, yet DELETE on that candidate payment does not commit a soft
delete: the recompute helper trips over the missing JOC enum member, the
request fails with an internal error and nothing changes. -/
theorem candidate_payment_delete_counterexample :
    delete_candidate_payment dbC10 8 =
      .error (.internalError "AttributeError: JOC is not a member of CandidateStatus") ∧
    commitState dbC10 (delete_candidate_payment dbC10 8) = dbC10 := by
  refine ⟨by decide, by decide⟩

/-- C10 (amended): deleting a company payment removes the row permanently
(the other payment tables are untouched), every company-payment ledger row
is reported active, and after the delete no ledger row tagged
COMPANY_PAYMENT carries the deleted id under any query, include_inactive
included; placement-income-payment deletion soft-deletes (the row stays
with is_active = false); candidate-payment deletion is coded as a soft
delete but never commits — it always fails on the stale enum member. -/
theorem company_payment_delete_semantics :
    (∀ (db : DB) (pid : Nat) (db2 : DB) (data : CompanyPayment),
      delete_payment db pid = .ok (db2, data) →
        db2.company_payments = db.company_payments.filter (fun p => !(p.id == pid)) ∧
        db2.candidate_payments = db.candidate_payments ∧
        db2.placement_income_payments = db.placement_income_payments ∧
        data ∈ db.company_payments ∧ data.id = pid) ∧
    (∀ (db : DB) (q : PaymentLedgerQuery), ∀ r ∈ (list_payment_ledger db q).items,
      r.source = "COMPANY_PAYMENT" → r.is_active = true) ∧
    (∀ (db : DB) (pid : Nat) (db2 : DB) (data : CompanyPayment) (q : PaymentLedgerQuery),
      delete_payment db pid = .ok (db2, data) →
        ∀ r ∈ (list_payment_ledger db2 q).items, r.source = "COMPANY_PAYMENT" →
          r.id ≠ pid) ∧
    (∀ (db : DB) (pid : Nat) (db2 : DB) (pay : PlacementIncomePayment),
      delete_placement_income_payment db pid = .ok (db2, pay) →
        pay.id = pid ∧ pay.is_active = false ∧
        ∃ p ∈ db2.placement_income_payments, p.id = pid ∧ p.is_active = false) ∧
    (∀ (db : DB) (pid : Nat), isOkResult (delete_candidate_payment db pid) = false) := by
  have hshape : ∀ (db : DB) (pid : Nat) (db2 : DB) (data : CompanyPayment),
      delete_payment db pid = .ok (db2, data) →
        db2.company_payments = db.company_payments.filter (fun p => !(p.id == pid)) ∧
        db2.candidate_payments = db.candidate_payments ∧
        db2.placement_income_payments = db.placement_income_payments ∧
        data ∈ db.company_payments ∧ data.id = pid := by
    intro db pid db2 data hrun
    simp only [delete_payment] at hrun
    split at hrun
    · cases hrun
    · rename_i payment hfind
      rw [Except.ok.injEq, Prod.mk.injEq] at hrun
      obtain ⟨h1, h2⟩ := hrun
      subst h1
      subst h2
      refine ⟨rfl, rfl, rfl, List.mem_of_find?_eq_some hfind, ?_⟩
      simpa using List.find?_some hfind
  refine ⟨hshape, ?_, ?_, ?_, ?_⟩
  · intro db q r hr hsrc
    have hmem := (List.mem_filter.mp (mem_ledger_items db q r hr)).1
    simp only [ledger_merged_rows, List.mem_append] at hmem
    rcases hmem with (h | h) | h
    · exact (ledger_company_row_shape db r h).2.1
    · rcases ledger_candidate_row_source db r h with h2 | h2 <;>
        (rw [h2] at hsrc; exact absurd hsrc (by decide))
    · have h2 := ledger_placement_row_source db r h
      rw [h2] at hsrc
      exact absurd hsrc (by decide)
  · intro db pid db2 data q hrun r hr hsrc
    obtain ⟨hcp, _, _, _, _⟩ := hshape db pid db2 data hrun
    have hmem := (List.mem_filter.mp (mem_ledger_items db2 q r hr)).1
    simp only [ledger_merged_rows, List.mem_append] at hmem
    rcases hmem with (h | h) | h
    · obtain ⟨_, _, p, hp, hid⟩ := ledger_company_row_shape db2 r h
      rw [hcp] at hp
      have := (List.mem_filter.mp hp).2
      intro hcontra
      rw [hid] at hcontra
      simp [hcontra] at this
    · rcases ledger_candidate_row_source db2 r h with h2 | h2 <;>
        (rw [h2] at hsrc; exact absurd hsrc (by decide))
    · have h2 := ledger_placement_row_source db2 r h
      rw [h2] at hsrc
      exact absurd hsrc (by decide)
  · intro db pid db2 pay hrun
    simp only [delete_placement_income_payment] at hrun
    split at hrun
    · cases hrun
    · rename_i payment hfind
      split at hrun
      · cases hrun
      · split at hrun
        · cases hrun
        · rename_i income hfindi
          split at hrun
          · cases hrun
          · rw [Except.ok.injEq, Prod.mk.injEq] at hrun
            obtain ⟨h1, h2⟩ := hrun
            subst h1
            subst h2
            have hpid : payment.id = pid := by simpa using List.find?_some hfind
            refine ⟨hpid, rfl, ?_⟩
            have hmem := mem_updateWhere_of_mem (fun p => p.id == payment.id)
              (fun _ => { payment with is_active := false })
              (List.mem_of_find?_eq_some hfind)
            rw [if_pos (by simp)] at hmem
            exact ⟨{ payment with is_active := false }, hmem, hpid, rfl⟩
  · intro db pid
    simp only [delete_candidate_payment, _recompute_joc_fee_balance]
    split
    · rfl
    · split
      · rfl
      · split
        · rfl
        · split
          · rfl
          · rfl

/-- C10 (amended) witness: on dbC10, deleting company payment 2 removes it
for good (no ledger row for it even with include_inactive), deleting
placement payment 7 soft-deletes it, and deleting candidate payment 8 never
commits. -/
theorem company_payment_delete_semantics_witness :
    (dbC10sub.company_payments = dbC10.company_payments.filter (fun p => !(p.id == 2)) ∧
      dbC10sub.candidate_payments = dbC10.candidate_payments ∧
      dbC10sub.placement_income_payments = dbC10.placement_income_payments ∧
      payC10 ∈ dbC10.company_payments ∧ payC10.id = 2) ∧
    (∀ r ∈ (list_payment_ledger dbC10sub qC10).items, r.source = "COMPANY_PAYMENT" →
      r.id ≠ 2) ∧
    (payC10p.id = 7 ∧ payC10p.is_active = false ∧
      ∃ p ∈ dbC10psub.placement_income_payments, p.id = 7 ∧ p.is_active = false) ∧
    isOkResult (delete_candidate_payment dbC10 8) = false := by
  refine ⟨company_payment_delete_semantics.1 dbC10 2 dbC10sub payC10 (by rfl),
    company_payment_delete_semantics.2.2.1 dbC10 2 dbC10sub payC10 qC10 (by rfl),
    company_payment_delete_semantics.2.2.2.1 dbC10 7 dbC10psub payC10p (by rfl),
    company_payment_delete_semantics.2.2.2.2 dbC10 8⟩

end JobPortal
